import Mathlib

/-!
Verification of the attic binary-cache server's ingestion-and-deduplication
engine (the upload coordinator, the metadata-store queries and the
garbage-collection queries).

The relational state is shallowly embedded as lists of typed rows following
the schema in `server/src/database/migrations.rs`, and each SQL query of
`server/src/database/queries.rs` becomes a pure function on that state. The
upload coordinator of `server/src/api/v1/upload_path.rs` is embedded as a
function from a database state and a request to the final database state and
the HTTP-level result, with the asynchronous request flow sequentialized.

Modelling conventions:
- Opaque strings (hashes in typed base16, cache names, store paths, JSON
  blobs, storage keys) are modelled as `Nat` values; only equality of these
  strings is ever consulted by the embedded code.
- `i64` database columns are modelled as `Int`; `usize` request quantities as
  `Nat`. The `i64::try_from` conversions are modelled as the total coercion.
- `AUTOINCREMENT` primary keys are modelled with a single fresh-id counter
  `next_id`; `INSERT` appends to the row list, matching rowid scan order.
- External collaborators (the SHA-256 hash, the compressor, the FastCDC
  chunker and the storage backend, all outside `server/src`) are passed in as
  an `Externals` record of abstract functions.
- Dropped holder guards schedule *asynchronous* `holders_count` decrements on
  a spawned task; those decrements run after the request completes and are
  therefore not part of the request's own state transition. The decrement
  queries themselves are modelled (`decrement_nar_holders`,
  `decrement_chunk_holders`).
- `PRAGMA foreign_keys` is never enabled by `TursoConnection::connect`, so
  the `ON DELETE CASCADE` clauses of the schema are inert at runtime and
  deletes are modelled as single-table deletes.
- A SQL transaction is modelled as the sequential composition of its
  statements; the rollback of a failed transaction is modelled by returning
  the state from before the transaction began.
-/

/-- Compression kind (`config::CompressionType` / `narinfo::Compression`):
`none`, `brotli`, `zstd` or `xz`. Stored in the database as a string; only
compared for equality. -/
inductive Compression where
  | none
  | brotli
  | zstd
  | xz
deriving DecidableEq

/-- NAR lifecycle state (`models::NarState`), stored as `'P'`/`'V'`/`'C'`/`'D'`. -/
inductive NarState where
  | pendingUpload
  | valid
  | confirmedDeduplicated
  | deleted
deriving DecidableEq

/-- Chunk lifecycle state (`models::ChunkState`), stored as `'P'`/`'V'`/`'C'`/`'D'`. -/
inductive ChunkState where
  | pendingUpload
  | valid
  | confirmedDeduplicated
  | deleted
deriving DecidableEq

/-- A row of the `cache` table (`models::CacheModel`). -/
structure CacheModel where
  id : Nat
  name : Nat
  keypair : Nat
  is_public : Bool
  store_dir : Nat
  priority : Int
  upstream_cache_key_names : Nat
  created_at : Nat
  deleted_at : Option Nat
  retention_period : Option Int
deriving DecidableEq

/-- A row of the `nar` table (`models::NarModel`). -/
structure NarModel where
  id : Nat
  state : NarState
  nar_hash : Nat
  nar_size : Int
  compression : Compression
  num_chunks : Int
  completeness_hint : Bool
  holders_count : Int
  created_at : Nat
deriving DecidableEq

/-- A row of the `chunk` table (`models::ChunkModel`). -/
structure ChunkModel where
  id : Nat
  state : ChunkState
  chunk_hash : Nat
  chunk_size : Int
  file_hash : Option Nat
  file_size : Option Int
  compression : Compression
  remote_file : Nat
  remote_file_id : Nat
  holders_count : Int
  created_at : Nat
deriving DecidableEq

/-- A row of the `chunkref` table (`models::ChunkRefModel`). -/
structure ChunkRefModel where
  id : Nat
  nar_id : Nat
  seq : Int
  chunk_id : Option Nat
  chunk_hash : Nat
  compression : Compression
deriving DecidableEq

/-- A row of the `object` table (`models::ObjectModel`). -/
structure ObjectModel where
  id : Nat
  cache_id : Nat
  nar_id : Nat
  store_path_hash : Nat
  store_path : Nat
  references : Nat
  system : Option Nat
  deriver : Option Nat
  sigs : Nat
  ca : Option Nat
  created_at : Nat
  last_accessed_at : Option Nat
  created_by : Option Nat
deriving DecidableEq

/-- The whole relational state of the metadata store. -/
structure Db where
  caches : List CacheModel
  nars : List NarModel
  chunks : List ChunkModel
  chunkrefs : List ChunkRefModel
  objects : List ObjectModel
  next_id : Nat
deriving DecidableEq

/-- `error::ErrorKind`, restricted to the kinds raised by the embedded code.
Dynamic parts of messages (formatted row counts, serde messages) are elided;
the static message text is kept verbatim. -/
inductive ErrKind where
  | requestError (msg : String)
  | unauthorized
  | noSuchCache
  | noSuchObject
  | databaseError (msg : String)
  | storageError
deriving DecidableEq

deriving instance DecidableEq for Except

/-- HTTP status produced for each error kind (`error.rs`). -/
def ErrKind.http_status : ErrKind → Nat
  | .requestError _ => 400
  | .unauthorized => 401
  | .noSuchCache => 404
  | .noSuchObject => 404
  | .databaseError _ => 500
  | .storageError => 500

/-! ## Metadata-store queries (`server/src/database/queries.rs`) -/

/-- `queries::find_and_lock_nar`: atomically increment `holders_count` on the
first Valid `nar` row whose `nar_hash` matches, returning the updated row. -/
def find_and_lock_nar (db : Db) (nar_hash : Nat) : Option (NarModel × Db) :=
  match db.nars.find? (fun n => decide (n.nar_hash = nar_hash ∧ n.state = NarState.valid)) with
  | Option.none => Option.none
  | Option.some n =>
      Option.some ({ n with holders_count := n.holders_count + 1 },
        { db with nars := db.nars.map (fun m =>
            if m.id = n.id then { m with holders_count := m.holders_count + 1 } else m) })

/-- `queries::find_and_lock_chunk`: the symmetric operation on `chunk` rows,
matching on `(chunk_hash, compression)`. -/
def find_and_lock_chunk (db : Db) (chunk_hash : Nat) (compression : Compression) :
    Option (ChunkModel × Db) :=
  match db.chunks.find? (fun c => decide (c.chunk_hash = chunk_hash ∧
      c.state = ChunkState.valid ∧ c.compression = compression)) with
  | Option.none => Option.none
  | Option.some c =>
      Option.some ({ c with holders_count := c.holders_count + 1 },
        { db with chunks := db.chunks.map (fun m =>
            if m.id = c.id then { m with holders_count := m.holders_count + 1 } else m) })

/-- `queries::decrement_nar_holders` (run by a dropped `NarGuard`, on a
spawned task after the request completes). -/
def decrement_nar_holders (db : Db) (nar_id : Nat) : Db :=
  { db with nars := db.nars.map (fun n =>
      if n.id = nar_id then { n with holders_count := n.holders_count - 1 } else n) }

/-- `queries::decrement_chunk_holders` (run by a dropped `ChunkGuard`). -/
def decrement_chunk_holders (db : Db) (chunk_id : Nat) : Db :=
  { db with chunks := db.chunks.map (fun c =>
      if c.id = chunk_id then { c with holders_count := c.holders_count - 1 } else c) }

/-- `queries::find_chunkref_missing_chunk`: the first `chunkref` of the NAR
whose `chunk_id` is NULL, if any. -/
def find_chunkref_missing_chunk (db : Db) (nar_id : Nat) : Option ChunkRefModel :=
  db.chunkrefs.find? (fun cr => decide (cr.nar_id = nar_id ∧ cr.chunk_id = Option.none))

/-- `queries::insert_nar`: inserts a `nar` row with `completeness_hint = 0`
and `holders_count = 0`, returning the inserted model. -/
def insert_nar (db : Db) (now : Nat) (state : NarState) (nar_hash : Nat) (nar_size : Int)
    (compression : Compression) (num_chunks : Int) : NarModel × Db :=
  let row : NarModel :=
    { id := db.next_id, state := state, nar_hash := nar_hash, nar_size := nar_size,
      compression := compression, num_chunks := num_chunks, completeness_hint := false,
      holders_count := 0, created_at := now }
  (row, { db with nars := db.nars ++ [row], next_id := db.next_id + 1 })

/-- `queries::update_nar`: dynamic partial update of `state`, `num_chunks`
and `completeness_hint` on one `nar` row (the source builds the SQL
dynamically via `substitute_params`; only the net field updates are
modelled). -/
def update_nar (db : Db) (nar_id : Nat) (state : Option NarState) (num_chunks : Option Int)
    (completeness_hint : Option Bool) : Db :=
  { db with nars := db.nars.map (fun n =>
      if n.id = nar_id then
        { n with state := state.getD n.state,
                 num_chunks := num_chunks.getD n.num_chunks,
                 completeness_hint := completeness_hint.getD n.completeness_hint }
      else n) }

/-- `queries::update_nar_completeness_hint`. -/
def update_nar_completeness_hint (db : Db) (nar_id : Nat) (hint : Bool) : Db :=
  { db with nars := db.nars.map (fun n =>
      if n.id = nar_id then { n with completeness_hint := hint } else n) }

/-- `queries::delete_nar` (`DELETE FROM nar WHERE id = ?`). -/
def delete_nar (db : Db) (nar_id : Nat) : Db :=
  { db with nars := db.nars.filter (fun n => decide (n.id ≠ nar_id)) }

/-- `queries::insert_chunk`: inserts a `chunk` row with `file_hash = NULL`,
`file_size = NULL` and `holders_count = 0`, returning the inserted model. -/
def insert_chunk (db : Db) (now : Nat) (state : ChunkState) (chunk_hash : Nat)
    (chunk_size : Int) (compression : Compression) (remote_file : Nat)
    (remote_file_id : Nat) : ChunkModel × Db :=
  let row : ChunkModel :=
    { id := db.next_id, state := state, chunk_hash := chunk_hash, chunk_size := chunk_size,
      file_hash := Option.none, file_size := Option.none, compression := compression,
      remote_file := remote_file, remote_file_id := remote_file_id,
      holders_count := 0, created_at := now }
  (row, { db with chunks := db.chunks ++ [row], next_id := db.next_id + 1 })

/-- `queries::update_chunk`: partial update of `state`, `file_hash`,
`file_size` and `holders_count` on one `chunk` row, returning the updated row
(`RETURNING`; `none` when no row has the id, which the caller maps to a
`DatabaseError`). -/
def update_chunk (db : Db) (chunk_id : Nat) (state : Option ChunkState)
    (file_hash : Option Nat) (file_size : Option Int) (holders_count : Option Int) :
    Db × Option ChunkModel :=
  let chunks' := db.chunks.map (fun c =>
    if c.id = chunk_id then
      { c with state := state.getD c.state,
               file_hash := match file_hash with | Option.some h => Option.some h | Option.none => c.file_hash,
               file_size := match file_size with | Option.some s => Option.some s | Option.none => c.file_size,
               holders_count := holders_count.getD c.holders_count }
    else c)
  ({ db with chunks := chunks' }, chunks'.find? (fun c => decide (c.id = chunk_id)))

/-- `queries::delete_chunk` (`DELETE FROM chunk WHERE id = ?`). -/
def delete_chunk (db : Db) (chunk_id : Nat) : Db :=
  { db with chunks := db.chunks.filter (fun c => decide (c.id ≠ chunk_id)) }

/-- `queries::insert_chunkref`, returning the fresh row id. -/
def insert_chunkref (db : Db) (nar_id : Nat) (seq : Int) (chunk_id : Option Nat)
    (chunk_hash : Nat) (compression : Compression) : Db × Nat :=
  let row : ChunkRefModel :=
    { id := db.next_id, nar_id := nar_id, seq := seq, chunk_id := chunk_id,
      chunk_hash := chunk_hash, compression := compression }
  ({ db with chunkrefs := db.chunkrefs ++ [row], next_id := db.next_id + 1 }, db.next_id)

/-- `queries::update_many_chunkrefs_by_hash`: point every `chunkref` with
NULL `chunk_id` and matching `(chunk_hash, compression)` at the given chunk;
returns the number of repaired rows. -/
def update_many_chunkrefs_by_hash (db : Db) (chunk_id : Nat) (chunk_hash : Nat)
    (compression : Compression) : Db × Nat :=
  let hit := fun (cr : ChunkRefModel) =>
    cr.chunk_id = Option.none ∧ cr.chunk_hash = chunk_hash ∧ cr.compression = compression
  ({ db with chunkrefs := db.chunkrefs.map (fun cr =>
      if hit cr then { cr with chunk_id := Option.some chunk_id } else cr) },
   (db.chunkrefs.filter (fun cr => decide (hit cr))).length)

/-- `queries::insert_object_upsert`: `INSERT ... ON CONFLICT(cache_id,
store_path_hash) DO UPDATE` replacing `nar_id`, `store_path`, `references`,
`system`, `deriver`, `sigs` and `ca` while keeping `created_at`,
`last_accessed_at` and `created_by`; returns the row id. -/
def insert_object_upsert (db : Db) (now : Nat) (cache_id : Nat) (nar_id : Nat)
    (store_path_hash : Nat) (store_path : Nat) (references : Nat) (system : Option Nat)
    (deriver : Option Nat) (sigs : Nat) (ca : Option Nat) (created_by : Option Nat) :
    Db × Nat :=
  if _h : ∃ o ∈ db.objects, o.cache_id = cache_id ∧ o.store_path_hash = store_path_hash then
    ({ db with objects := db.objects.map (fun o =>
        if o.cache_id = cache_id ∧ o.store_path_hash = store_path_hash then
          { o with nar_id := nar_id, store_path := store_path, references := references,
                   system := system, deriver := deriver, sigs := sigs, ca := ca }
        else o) },
     match db.objects.find? (fun o =>
        decide (o.cache_id = cache_id ∧ o.store_path_hash = store_path_hash)) with
     | Option.some o => o.id
     | Option.none => 0)
  else
    let row : ObjectModel :=
      { id := db.next_id, cache_id := cache_id, nar_id := nar_id,
        store_path_hash := store_path_hash, store_path := store_path,
        references := references, system := system, deriver := deriver, sigs := sigs,
        ca := ca, created_at := now, last_accessed_at := Option.none,
        created_by := created_by }
    ({ db with objects := db.objects ++ [row], next_id := db.next_id + 1 }, db.next_id)

/-! ## Garbage-collection queries (`queries.rs`) and passes (`server/src/gc.rs`) -/

/-- `queries::find_caches_with_retention`: caches that are not soft-deleted
and whose effective retention (`COALESCE(retention_period, default)`) is
non-zero, as `(id, effective retention)` pairs. -/
def find_caches_with_retention (db : Db) (default_retention : Int) : List (Nat × Int) :=
  (db.caches.filter (fun c =>
      decide (c.deleted_at = Option.none ∧ c.retention_period.getD default_retention ≠ 0))).map
    (fun c => (c.id, c.retention_period.getD default_retention))

/-- `queries::delete_objects_by_cache_and_cutoff`: delete the cache's objects
whose `created_at` precedes the cutoff and whose `last_accessed_at` is NULL
or also precedes it; returns the number of deleted rows. -/
def delete_objects_by_cache_and_cutoff (db : Db) (cache_id : Nat) (cutoff : Nat) : Db × Nat :=
  let doomed := fun (o : ObjectModel) =>
    o.cache_id = cache_id ∧ o.created_at < cutoff ∧
      (o.last_accessed_at = Option.none ∨ ∃ t, o.last_accessed_at = Option.some t ∧ t < cutoff)
  ({ db with objects := db.objects.filter (fun o => decide (¬ doomed o)) },
   (db.objects.filter (fun o => decide (doomed o))).length)

/-- `queries::find_orphan_nar_ids`: ids of `nar` rows in Valid state with
`holders_count = 0` and no `object` referencing them. -/
def find_orphan_nar_ids (db : Db) : List Nat :=
  (db.nars.filter (fun n => decide (n.state = NarState.valid ∧ n.holders_count = 0 ∧
      ∀ o ∈ db.objects, o.nar_id ≠ n.id))).map (fun n => n.id)

/-- `queries::delete_nars_by_ids`; returns the number of deleted rows. -/
def delete_nars_by_ids (db : Db) (ids : List Nat) : Db × Nat :=
  ({ db with nars := db.nars.filter (fun n => decide (n.id ∉ ids)) },
   (db.nars.filter (fun n => decide (n.id ∈ ids))).length)

/-- `queries::find_orphan_chunk_ids`: ids of `chunk` rows in Valid state with
`holders_count = 0` and no `chunkref` referencing them. -/
def find_orphan_chunk_ids (db : Db) : List Nat :=
  (db.chunks.filter (fun c => decide (c.state = ChunkState.valid ∧ c.holders_count = 0 ∧
      ∀ cr ∈ db.chunkrefs, cr.chunk_id ≠ Option.some c.id))).map (fun c => c.id)

/-- `queries::transition_chunks_to_deleted` (`UPDATE chunk SET state = 'D'
WHERE id IN (...)`); returns the number of affected rows. -/
def transition_chunks_to_deleted (db : Db) (ids : List Nat) : Db × Nat :=
  ({ db with chunks := db.chunks.map (fun c =>
      if c.id ∈ ids then { c with state := ChunkState.deleted } else c) },
   (db.chunks.filter (fun c => decide (c.id ∈ ids))).length)

/-- `queries::find_deleted_chunks`: chunks in Deleted state, `LIMIT limit`. -/
def find_deleted_chunks (db : Db) (limit : Nat) : List ChunkModel :=
  (db.chunks.filter (fun c => decide (c.state = ChunkState.deleted))).take limit

/-- `queries::delete_chunks_by_ids`; returns the number of deleted rows. -/
def delete_chunks_by_ids (db : Db) (ids : List Nat) : Db × Nat :=
  ({ db with chunks := db.chunks.filter (fun c => decide (c.id ∉ ids)) },
   (db.chunks.filter (fun c => decide (c.id ∈ ids))).length)

/-- `gc::run_reap_orphan_nars`: find orphan NAR ids, and delete them unless
there are none. -/
def run_reap_orphan_nars (db : Db) : Db :=
  let ids := find_orphan_nar_ids db
  if ids.isEmpty then db else (delete_nars_by_ids db ids).1

/-- `gc::run_reap_orphan_chunks`: transition orphan chunks to Deleted, fetch
up to 500 Deleted chunks, delete their backend objects (success per chunk is
given by `delete_file_ok`; spurious failures are tolerated and leave the row
in Deleted state), then delete the rows whose backend delete succeeded. -/
def run_reap_orphan_chunks (db : Db) (delete_file_ok : ChunkModel → Bool) : Db :=
  let ids := find_orphan_chunk_ids db
  if ids.isEmpty then db
  else
    let db1 := (transition_chunks_to_deleted db ids).1
    let orphan_chunks := find_deleted_chunks db1 500
    if orphan_chunks.isEmpty then db1
    else (delete_chunks_by_ids db1 ((orphan_chunks.filter delete_file_ok).map (fun c => c.id))).1

/-- `gc::run_time_based_garbage_collection`: for each cache with non-zero
effective retention, delete objects older than the cache's cutoff
(`cutoff_of` maps the retention period to `now - period`). -/
def run_time_based_garbage_collection (db : Db) (default_retention : Int)
    (cutoff_of : Int → Nat) : Db :=
  (find_caches_with_retention db default_retention).foldl
    (fun acc c => (delete_objects_by_cache_and_cutoff acc c.1 (cutoff_of c.2)).1) db

/-! ## Find-with-chunks (`queries::find_object_and_chunks_by_store_path_hash`) -/

/-- The row produced by joining `object`, `cache` and `nar` on
`c.name = ?1 AND c.deleted_at IS NULL AND o.store_path_hash = ?2 AND
n.state = 'V'`: the first object (in scan order) whose cache and NAR rows
satisfy the conditions. -/
def find_object_row (db : Db) (cache : Nat) (store_path_hash : Nat) :
    Option (ObjectModel × CacheModel × NarModel) :=
  db.objects.findSome? (fun o =>
    if o.store_path_hash = store_path_hash then
      match db.caches.find? (fun c =>
          decide (c.id = o.cache_id ∧ c.name = cache ∧ c.deleted_at = Option.none)) with
      | Option.some c =>
        match db.nars.find? (fun n => decide (n.id = o.nar_id ∧ n.state = NarState.valid)) with
        | Option.some n => Option.some (o, c, n)
        | Option.none => Option.none
      | Option.none => Option.none
    else Option.none)

/-- The relation ordering chunkrefs by `seq` (`ORDER BY cr.seq ASC`). -/
def seqLE (a b : ChunkRefModel) : Prop := a.seq ≤ b.seq

instance : DecidableRel seqLE := fun a b => inferInstanceAs (Decidable (a.seq ≤ b.seq))

instance : IsTotal ChunkRefModel seqLE := ⟨fun a b => le_total a.seq b.seq⟩

instance : IsTrans ChunkRefModel seqLE := ⟨fun _ _ _ h h' => le_trans h h'⟩

/-- The `LEFT JOIN chunk ch ON cr.chunk_id = ch.id AND ch.state = 'V'`
payload of one result row: the Valid chunk the chunkref points at, if any. -/
def chunk_of_chunkref (db : Db) (cr : ChunkRefModel) : Option ChunkModel :=
  cr.chunk_id.bind (fun cid =>
    db.chunks.find? (fun ch => decide (ch.id = cid ∧ ch.state = ChunkState.valid)))

/-- `queries::find_object_without_chunks` (`include_chunks = false`): the
object, cache and NAR with an empty chunk list, or `NoSuchObject`. -/
def find_object_without_chunks (db : Db) (cache : Nat) (store_path_hash : Nat) :
    Except ErrKind (ObjectModel × CacheModel × NarModel × List (Option ChunkModel)) :=
  match find_object_row db cache store_path_hash with
  | Option.some (o, c, n) => Except.ok (o, c, n, [])
  | Option.none => Except.error ErrKind.noSuchObject

/-- `queries::find_object_with_chunks` (`include_chunks = true`): the inner
join with `chunkref` ordered by `seq`, one `Option ChunkModel` per chunkref
row; zero joined rows yield `NoSuchObject`, and a row count different from
`nar.num_chunks` yields a `DatabaseError`. -/
def find_object_with_chunks (db : Db) (cache : Nat) (store_path_hash : Nat) :
    Except ErrKind (ObjectModel × CacheModel × NarModel × List (Option ChunkModel)) :=
  match find_object_row db cache store_path_hash with
  | Option.none => Except.error ErrKind.noSuchObject
  | Option.some (o, c, n) =>
    let crs := List.insertionSort seqLE (db.chunkrefs.filter (fun cr => decide (cr.nar_id = n.id)))
    if crs.isEmpty then Except.error ErrKind.noSuchObject
    else
      let chunks := crs.map (chunk_of_chunkref db)
      if (chunks.length : Int) = n.num_chunks then Except.ok (o, c, n, chunks)
      else Except.error (ErrKind.databaseError "Database returned the wrong number of chunks")

/-- `queries::find_object_and_chunks_by_store_path_hash`. -/
def find_object_and_chunks_by_store_path_hash (db : Db) (cache : Nat)
    (store_path_hash : Nat) (include_chunks : Bool) :
    Except ErrKind (ObjectModel × CacheModel × NarModel × List (Option ChunkModel)) :=
  if include_chunks then find_object_with_chunks db cache store_path_hash
  else find_object_without_chunks db cache store_path_hash

/-! ## Upload coordinator (`server/src/api/v1/upload_path.rs`) -/

/-- Chunking parameters (`config::ChunkingConfig`). -/
structure ChunkingConfig where
  nar_size_threshold : Nat
  min_size : Nat
  avg_size : Nat
  max_size : Nat
deriving DecidableEq

/-- The slice of the server configuration consulted by the upload
coordinator (`config.rs`). The compression level only parametrizes the
abstract compressor and is folded into `Externals.compress`. -/
structure Config where
  max_nar_info_size : Nat
  chunking : ChunkingConfig
  compression_type : Compression
  require_proof_of_possession : Bool
deriving DecidableEq

/-- Modelled from the spec: the external collaborators of the upload
coordinator that live outside `server/src` — the SHA-256 digest and running
length of a byte stream (`attic::io::HashReader`, §4.3: both taps are the
digest/length of the bytes fed through), the compressor output
(`compression.rs` pipeline around the `async_compression` encoders, §4.3),
the FastCDC content-defined chunker (`attic::chunking::chunk_stream`, §4.2:
a pure function from the input bytes and the three size parameters to the
finite list of plaintext chunks whose concatenation is the input), and the
storage backend's per-key upload success (§6). Bytes are `List Nat`. -/
structure Externals where
  sha256 : List Nat → Nat
  compress : Compression → List Nat → List Nat
  chunk_stream : ChunkingConfig → List Nat → List (List Nat)
  upload_ok : Nat → Bool

/-- `api::v1::upload_path::UploadPathNarInfo` — the upload preamble. -/
structure UploadPathNarInfo where
  cache : Nat
  store_path_hash : Nat
  store_path : Nat
  nar_hash : Nat
  nar_size : Nat
  references : Nat
  system : Option Nat
  deriver : Option Nat
  sigs : Nat
  ca : Option Nat
deriving DecidableEq

/-- The two preamble-carrying request headers (`X-Attic-Nar-Info-Preamble-Size`
and `X-Attic-Nar-Info`). A well-formed size header is modelled as the parsed
`Nat`; malformed header encodings (rejected before the size check) are not
modelled. -/
structure RequestHeaders where
  preamble_size : Option Nat
  nar_info : Option (List Nat)

/-- `UploadPathResultKind`. -/
inductive UploadPathResultKind where
  | uploaded
  | deduplicated
deriving DecidableEq

/-- `UploadPathResult`. `frac_deduplicated` is an `f64` in the source
(`deduplicated_size as f64 / nar_size as f64`); it is modelled as the exact
`(deduplicated_size, nar_size)` pair. -/
structure UploadPathResult where
  kind : UploadPathResultKind
  file_size : Option Nat
  frac_deduplicated : Option (Nat × Nat)
deriving DecidableEq

/-- The preamble-extraction prefix of `upload_path` (lines 84–126): take the
preamble either as the first `preamble_size` bytes of the body (rejecting a
declared size above `max_nar_info_size`, and a short read;
`attic::io::read_chunk_async` is modelled from the spec as reading up to the
requested number of bytes) or from the `X-Attic-Nar-Info` header, and decode
it (`serde_json` is the abstract `parse_json`). Returns the preamble and the
rest of the body. -/
def parse_preamble (cfg : Config) (parse_json : List Nat → Option UploadPathNarInfo)
    (headers : RequestHeaders) (body : List Nat) :
    Except ErrKind (UploadPathNarInfo × List Nat) :=
  match headers.preamble_size with
  | Option.some preamble_size =>
    if preamble_size > cfg.max_nar_info_size then
      Except.error (ErrKind.requestError "Upload info is too large")
    else
      let preamble := body.take preamble_size
      if preamble.length ≠ preamble_size then
        Except.error (ErrKind.requestError "Upload info doesn\x27t match specified size")
      else
        match parse_json preamble with
        | Option.some info => Except.ok (info, body.drop preamble_size)
        | Option.none => Except.error (ErrKind.requestError "invalid upload info")
  | Option.none =>
    match headers.nar_info with
    | Option.some bytes =>
      match parse_json bytes with
      | Option.some info => Except.ok (info, body)
      | Option.none => Except.error (ErrKind.requestError "invalid upload info")
    | Option.none => Except.error (ErrKind.requestError "X-Attic-Nar-Info must be set")

/-- `upload_path::ChunkData`: either in-memory bytes with a trusted hash, or
a stream with a user-claimed hash and size. The stream's actual contents are
the bytes that will be read from it. -/
inductive ChunkData where
  | bytes (b : List Nat)
  | stream (b : List Nat) (claimed_hash : Nat) (claimed_size : Nat)
deriving DecidableEq

/-- `ChunkData::hash`: the potentially-incorrect hash of the chunk. -/
def ChunkData.hash (env : Externals) : ChunkData → Nat
  | .bytes b => env.sha256 b
  | .stream _ h _ => h

/-- `ChunkData::size`: the potentially-incorrect size of the chunk. -/
def ChunkData.size : ChunkData → Nat
  | .bytes b => b.length
  | .stream _ _ s => s

/-- `ChunkData::is_hash_trusted`. -/
def ChunkData.is_hash_trusted : ChunkData → Bool
  | .bytes _ => true
  | .stream _ _ _ => false

/-- `ChunkData::into_async_buf_read`: the bytes actually read out. -/
def ChunkData.contents : ChunkData → List Nat
  | .bytes b => b
  | .stream b _ _ => b

/-- `upload_path::upload_chunk` (lines 575–734): deduplicate against an
existing Valid `(chunk_hash, compression)` row (with an optional
proof-of-possession drain-and-verify when the source hash is untrusted), or
insert a PendingUpload chunk row, stream it through the compressor to the
backend under a fresh `key`, verify the plaintext digest tap against the
claimed hash and size, and finalize in one transaction (chunk to Valid with
`file_hash`/`file_size`/`holders_count = 1`, plus the chunkref repair).
Failures after the insert run the deferred cleanup that deletes the backend
object and the chunk row. The returned `Bool` is the `deduplicated` flag of
`UploadChunkResult`. -/
def upload_chunk (cfg : Config) (env : Externals) (db : Db) (now : Nat) (key : Nat)
    (data : ChunkData) : Db × Except ErrKind (ChunkModel × Bool) :=
  let given_chunk_hash := data.hash env
  let given_chunk_size := data.size
  match find_and_lock_chunk db given_chunk_hash cfg.compression_type with
  | Option.some (existing_chunk, db1) =>
    if cfg.require_proof_of_possession = true ∧ data.is_hash_trusted = false ∧
        ¬(env.sha256 data.contents = existing_chunk.chunk_hash ∧
          data.contents.length = given_chunk_size ∧
          (data.contents.length : Int) = existing_chunk.chunk_size) then
      (db1, Except.error (ErrKind.requestError "Bad chunk hash or size"))
    else
      (db1, Except.ok (existing_chunk, true))
  | Option.none =>
    let ins := insert_chunk db now ChunkState.pendingUpload given_chunk_hash
      (given_chunk_size : Int) cfg.compression_type key key
    let c0 := ins.1
    let db1 := ins.2
    if env.upload_ok key = false then
      (delete_chunk db1 c0.id, Except.error ErrKind.storageError)
    else
      let chunk_hash := env.sha256 data.contents
      let chunk_size := data.contents.length
      let encoded := env.compress cfg.compression_type data.contents
      let file_hash := env.sha256 encoded
      let file_size := encoded.length
      if chunk_hash = given_chunk_hash ∧ chunk_size = given_chunk_size then
        let upd := update_chunk db1 c0.id (Option.some ChunkState.valid)
          (Option.some file_hash) (Option.some (file_size : Int)) (Option.some 1)
        match upd.2 with
        | Option.some updated_chunk =>
          ((update_many_chunkrefs_by_hash upd.1 c0.id chunk_hash cfg.compression_type).1,
           Except.ok (updated_chunk, false))
        | Option.none =>
          (delete_chunk db1 c0.id, Except.error (ErrKind.databaseError "Failed to update chunk"))
      else
        (delete_chunk db1 c0.id, Except.error (ErrKind.requestError "Bad chunk hash or size"))

/-- The per-chunk task loop of `upload_path_new_chunked` (lines 325–368),
sequentialized: each emitted chunk is uploaded via `upload_chunk` and, on
success, its chunkref is inserted with its `seq`; a failed chunk task records
its error for the later join. -/
def upload_chunks_loop (cfg : Config) (env : Externals) (now : Nat) (nar_id : Nat)
    (keys : Nat → Nat) : Db → Nat → List (List Nat) →
    Db × List (Except ErrKind (ChunkModel × Bool))
  | db, _, [] => (db, [])
  | db, chunk_idx, piece :: rest =>
    let r := upload_chunk cfg env db now (keys chunk_idx) (ChunkData.bytes piece)
    match r.2 with
    | Except.error e =>
      let tail := upload_chunks_loop cfg env now nar_id keys r.1 (chunk_idx + 1) rest
      (tail.1, Except.error e :: tail.2)
    | Except.ok (chunk, dedup) =>
      let db2 := (insert_chunkref r.1 nar_id (chunk_idx : Int) (Option.some chunk.id)
        chunk.chunk_hash chunk.compression).1
      let tail := upload_chunks_loop cfg env now nar_id keys db2 (chunk_idx + 1) rest
      (tail.1, Except.ok (chunk, dedup) :: tail.2)

/-- `upload_path::upload_path_new_chunked` (lines 273–463): insert a
PendingUpload NAR (with a deferred cleanup that deletes it on abnormal exit),
feed the body capped at the declared `nar_size` through the hashing tap and
the chunker, upload every chunk, verify the streamed digest and length
against the declared values (failing `"Bad NAR Hash or Size"`), join the
chunk results propagating the first error, and finalize in one transaction
(NAR to Valid with the observed `num_chunks`, object upsert). -/
def upload_path_new_chunked (cfg : Config) (env : Externals) (db : Db) (now : Nat)
    (keys : Nat → Nat) (cache : CacheModel) (info : UploadPathNarInfo) (body : List Nat)
    (username : Option Nat) : Db × Except ErrKind UploadPathResult :=
  let ins := insert_nar db now NarState.pendingUpload info.nar_hash
    (info.nar_size : Int) cfg.compression_type 0
  let nar := ins.1
  let taken := body.take info.nar_size
  let loop := upload_chunks_loop cfg env now nar.id keys ins.2 0
    (env.chunk_stream cfg.chunking taken)
  let db2 := loop.1
  let results := loop.2
  if env.sha256 taken = info.nar_hash ∧ taken.length = info.nar_size then
    match results.findSome? (fun r => match r with
        | Except.error e => Option.some e
        | Except.ok _ => Option.none) with
    | Option.some e => (delete_nar db2 nar.id, Except.error e)
    | Option.none =>
      let chunks := results.filterMap Except.toOption
      let file_size := chunks.foldl (fun acc c => acc + (c.1.file_size.getD 0).toNat) 0
      let deduplicated_size := chunks.foldl
        (fun acc c => acc + (if c.2 then c.1.chunk_size.toNat else 0)) 0
      let db3 := update_nar db2 nar.id (Option.some NarState.valid)
        (Option.some (chunks.length : Int)) Option.none
      let db4 := (insert_object_upsert db3 now cache.id nar.id info.store_path_hash
        info.store_path info.references Option.none info.deriver info.sigs info.ca username).1
      (db4, Except.ok { kind := UploadPathResultKind.uploaded,
                        file_size := Option.some file_size,
                        frac_deduplicated := Option.some (deduplicated_size, taken.length) })
  else
    (delete_nar db2 nar.id, Except.error (ErrKind.requestError "Bad NAR Hash or Size"))

/-- `upload_path::upload_path_new_unchunked` (lines 468–570): upload the
whole body (capped at the declared `nar_size`) as a single streamed chunk
whose claimed hash/size are the declared NAR hash/size, then in one
transaction insert the NAR directly in Valid state with the chunk's verified
`chunk_size` as `nar_size` and `num_chunks = 1`, insert the seq-0 chunkref,
and upsert the object. -/
def upload_path_new_unchunked (cfg : Config) (env : Externals) (db : Db) (now : Nat)
    (keys : Nat → Nat) (cache : CacheModel) (info : UploadPathNarInfo) (body : List Nat)
    (username : Option Nat) : Db × Except ErrKind UploadPathResult :=
  let data := ChunkData.stream (body.take info.nar_size) info.nar_hash info.nar_size
  let r := upload_chunk cfg env db now (keys 0) data
  match r.2 with
  | Except.error e => (r.1, Except.error e)
  | Except.ok (chunk, _) =>
    let file_size := (chunk.file_size.getD 0).toNat
    let ins := insert_nar r.1 now NarState.valid info.nar_hash chunk.chunk_size
      cfg.compression_type 1
    let nar := ins.1
    let db3 := (insert_chunkref ins.2 nar.id 0 (Option.some chunk.id) info.nar_hash
      cfg.compression_type).1
    let db4 := (insert_object_upsert db3 now cache.id nar.id info.store_path_hash
      info.store_path info.references Option.none info.deriver info.sigs info.ca username).1
    (db4, Except.ok { kind := UploadPathResultKind.uploaded,
                      file_size := Option.some file_size,
                      frac_deduplicated := Option.none })

/-- `upload_path::upload_path_new` (lines 255–270): unchunked when the
configured `nar_size_threshold` is zero or the declared `nar_size` is below
it, chunked otherwise. -/
def upload_path_new (cfg : Config) (env : Externals) (db : Db) (now : Nat)
    (keys : Nat → Nat) (cache : CacheModel) (info : UploadPathNarInfo) (body : List Nat)
    (username : Option Nat) : Db × Except ErrKind UploadPathResult :=
  if cfg.chunking.nar_size_threshold = 0 ∨ info.nar_size < cfg.chunking.nar_size_threshold then
    upload_path_new_unchunked cfg env db now keys cache info body username
  else
    upload_path_new_chunked cfg env db now keys cache info body username

/-- `upload_path::upload_path_dedup` (lines 165–248): with the NAR guard
held, optionally drain the body through the hashing sink for proof of
possession (failing `"Bad NAR Hash or Size"` when the streamed digest or
length disagrees with the locked NAR or the preamble), then in one write
transaction upsert the object pointing at the locked NAR and set the NAR's
`completeness_hint` to true, and return `Deduplicated`. -/
def upload_path_dedup (cfg : Config) (env : Externals) (db : Db) (now : Nat)
    (cache : CacheModel) (info : UploadPathNarInfo) (body : List Nat)
    (username : Option Nat) (existing_nar : NarModel) :
    Db × Except ErrKind UploadPathResult :=
  if cfg.require_proof_of_possession = true ∧
      ¬(env.sha256 body = existing_nar.nar_hash ∧ body.length = info.nar_size ∧
        (body.length : Int) = existing_nar.nar_size) then
    (db, Except.error (ErrKind.requestError "Bad NAR Hash or Size"))
  else
    let db1 := (insert_object_upsert db now cache.id existing_nar.id info.store_path_hash
      info.store_path info.references Option.none info.deriver info.sigs info.ca username).1
    let db2 := update_nar_completeness_hint db1 existing_nar.id true
    (db2, Except.ok { kind := UploadPathResultKind.deduplicated,
                      file_size := Option.none, frac_deduplicated := Option.none })

/-- `upload_path::upload_path` after preamble parsing and authentication
(lines 141–162): run the dedup probe (`find_and_lock_nar`); when it locks a
NAR and none of its chunkrefs has a NULL `chunk_id`, deduplicate, otherwise
take the new-upload path. `cache` is the authenticated cache row and
`username` the token's user. -/
def upload_path (cfg : Config) (env : Externals) (db : Db) (now : Nat) (keys : Nat → Nat)
    (cache : CacheModel) (info : UploadPathNarInfo) (body : List Nat)
    (username : Option Nat) : Db × Except ErrKind UploadPathResult :=
  match find_and_lock_nar db info.nar_hash with
  | Option.some (existing_nar, db1) =>
    match find_chunkref_missing_chunk db1 existing_nar.id with
    | Option.none => upload_path_dedup cfg env db1 now cache info body username existing_nar
    | Option.some _ => upload_path_new cfg env db1 now keys cache info body username
  | Option.none => upload_path_new cfg env db now keys cache info body username

/-! ## Helper lemmas -/

theorem find_and_lock_chunk_inv {db : Db} {h : Nat} {comp : Compression} {c : ChunkModel}
    {db' : Db} (he : find_and_lock_chunk db h comp = Option.some (c, db')) :
    db'.nars = db.nars ∧ db'.chunkrefs = db.chunkrefs ∧ db'.objects = db.objects ∧
    db'.chunks.length = db.chunks.length ∧
    (∀ m ∈ db.chunks, m.id = c.id →
      { m with holders_count := m.holders_count + 1 } ∈ db'.chunks) := by
  unfold find_and_lock_chunk at he
  split at he
  · cases he
  · rename_i c₀ hf
    simp only [Option.some.injEq, Prod.mk.injEq] at he
    obtain ⟨hc, rfl⟩ := he
    subst hc
    refine ⟨rfl, rfl, rfl, by simp, ?_⟩
    intro m hm hid
    have hmapped : (fun m => if m.id = c₀.id then
        { m with holders_count := m.holders_count + 1 } else m) m
        = { m with holders_count := m.holders_count + 1 } := by
      simp only [hid]
      simp
    exact hmapped ▸ List.mem_map_of_mem _ hm

theorem find_and_lock_nar_inv {db : Db} {h : Nat} {n : NarModel}
    {db' : Db} (he : find_and_lock_nar db h = Option.some (n, db')) :
    db'.chunks = db.chunks ∧ db'.chunkrefs = db.chunkrefs ∧ db'.objects = db.objects ∧
    db'.nars.length = db.nars.length ∧
    (∀ m ∈ db.nars, m.id = n.id →
      { m with holders_count := m.holders_count + 1 } ∈ db'.nars) := by
  unfold find_and_lock_nar at he
  split at he
  · cases he
  · rename_i n₀ hf
    simp only [Option.some.injEq, Prod.mk.injEq] at he
    obtain ⟨hn, rfl⟩ := he
    subst hn
    refine ⟨rfl, rfl, rfl, by simp, ?_⟩
    intro m hm hid
    have hmapped : (fun m => if m.id = n₀.id then
        { m with holders_count := m.holders_count + 1 } else m) m
        = { m with holders_count := m.holders_count + 1 } := by
      simp only [hid]
      simp
    exact hmapped ▸ List.mem_map_of_mem _ hm

theorem upload_chunk_nars (cfg : Config) (env : Externals) (db : Db) (now : Nat) (key : Nat)
    (data : ChunkData) : (upload_chunk cfg env db now key data).1.nars = db.nars := by
  unfold upload_chunk
  cases heq : find_and_lock_chunk db (ChunkData.hash env data) cfg.compression_type with
  | some p =>
    obtain ⟨c, db1⟩ := p
    obtain ⟨hn, -, -, -, -⟩ := find_and_lock_chunk_inv heq
    simp only [heq]
    split
    · exact hn
    · exact hn
  | none =>
    simp only [heq]
    split
    · rfl
    · split
      · split
        · rfl
        · rfl
      · rfl

theorem pairwise_key_map {α : Type} (key : α → Nat) {l : List α} {f : α → α}
    (hf : ∀ a, key (f a) = key a) (h : l.Pairwise (fun a b => key a ≠ key b)) :
    (l.map f).Pairwise (fun a b => key a ≠ key b) := by
  rw [List.pairwise_map]
  refine h.imp ?_
  intro a b hab hk
  exact hab (by rw [← hf a, ← hf b]; exact hk)

theorem eq_of_pairwise_key {α : Type} (key : α → Nat) :
    ∀ {l : List α}, l.Pairwise (fun a b => key a ≠ key b) →
    ∀ {a b}, a ∈ l → b ∈ l → key a = key b → a = b := by
  intro l hl
  induction hl with
  | nil => intro a b ha _ _; cases ha
  | cons hhead _ ih =>
    intro a b ha hb hk
    rcases List.mem_cons.mp ha with rfl | ha'
    · rcases List.mem_cons.mp hb with rfl | hb'
      · rfl
      · exact absurd hk (hhead b hb')
    · rcases List.mem_cons.mp hb with rfl | hb'
      · exact absurd hk.symm (hhead a ha')
      · exact ih ha' hb' hk

/-- Concrete request data for the C7 analysis. -/
def infoC7 : UploadPathNarInfo :=
  { cache := 0, store_path_hash := 0, store_path := 0, nar_hash := 0, nar_size := 0,
    references := 0, system := Option.none, deriver := Option.none, sigs := 0,
    ca := Option.none }

/-- Configuration with `max_nar_info_size = 0` for the C7 analysis. -/
def cfgC7 : Config :=
  { max_nar_info_size := 0,
    chunking := { nar_size_threshold := 0, min_size := 0, avg_size := 0, max_size := 0 },
    compression_type := Compression.zstd, require_proof_of_possession := false }

/-- C7 counterexample: with `max_nar_info_size = 0`, a one-byte preamble that
arrives in the dedicated `X-Attic-Nar-Info` header is accepted — `upload_path`
applies the size limit only to the length-prefixed body variant, so the claim
that an oversize preamble is rejected whichever way it arrives is false. -/
theorem parse_preamble_header_counterexample :
    cfgC7.max_nar_info_size < ([7] : List Nat).length ∧
    parse_preamble cfgC7 (fun _ => Option.some infoC7)
      { preamble_size := Option.none, nar_info := Option.some [7] } [] =
      Except.ok (infoC7, []) :=
  ⟨by decide, rfl⟩

/-- C7 (amended): for a preamble sent as a length-prefixed prefix of the body,
a declared size strictly above `max_nar_info_size` is rejected with a 400
`"Upload info is too large"` and a size of exactly `max_nar_info_size` is
accepted (given that many body bytes and a decodable preamble); a preamble
sent in the `X-Attic-Nar-Info` header is not checked against
`max_nar_info_size` at all. -/
theorem parse_preamble_size_spec (cfg : Config)
    (parse_json : List Nat → Option UploadPathNarInfo) (size : Nat) (body : List Nat)
    (nar_info_hdr : Option (List Nat)) :
    (size > cfg.max_nar_info_size →
      parse_preamble cfg parse_json
        { preamble_size := Option.some size, nar_info := nar_info_hdr } body =
        Except.error (ErrKind.requestError "Upload info is too large") ∧
      (ErrKind.requestError "Upload info is too large").http_status = 400) ∧
    (∀ info, size = cfg.max_nar_info_size → (body.take size).length = size →
      parse_json (body.take size) = Option.some info →
      parse_preamble cfg parse_json
        { preamble_size := Option.some size, nar_info := nar_info_hdr } body =
        Except.ok (info, body.drop size)) ∧
    (∀ bytes info, parse_json bytes = Option.some info →
      parse_preamble cfg parse_json
        { preamble_size := Option.none, nar_info := Option.some bytes } body =
        Except.ok (info, body)) := by
  refine ⟨fun h => ⟨?_, rfl⟩, fun info hsz hlen hpj => ?_, fun bytes info hpj => ?_⟩
  · simp [parse_preamble, h]
  · have hgt : ¬ size > cfg.max_nar_info_size := by omega
    simp [parse_preamble, hgt, hlen, hpj]
  · simp [parse_preamble, hpj]

/-- C7 witness: a one-byte body preamble against `max_nar_info_size = 0` is
rejected as too large. -/
theorem parse_preamble_size_spec_witness :
    1 > cfgC7.max_nar_info_size ∧
    parse_preamble cfgC7 (fun _ => Option.some infoC7)
      { preamble_size := Option.some 1, nar_info := Option.none } [9, 9] =
      Except.error (ErrKind.requestError "Upload info is too large") :=
  ⟨by decide, ((parse_preamble_size_spec cfgC7 (fun _ => Option.some infoC7) 1 [9, 9]
      Option.none).1 (by decide)).1⟩

/-- The `UNIQUE(cache_id, store_path_hash)` constraint on the `object` table,
as a property of the row list. -/
def ObjKeyUnique (db : Db) : Prop :=
  db.objects.Pairwise (fun a b =>
    ¬(a.cache_id = b.cache_id ∧ a.store_path_hash = b.store_path_hash))

/-- C4: `insert_object_upsert` preserves the uniqueness of
`(cache_id, store_path_hash)` among Objects, and on a conflicting key it
replaces exactly `nar_id`, `store_path`, `references`, `system`, `deriver`,
`sigs` and `ca` of the existing row, leaving `created_at` (as well as
`last_accessed_at` and `created_by`) unchanged. -/
theorem insert_object_upsert_spec (db : Db) (now cache_id nar_id store_path_hash
    store_path references : Nat) (system deriver : Option Nat) (sigs : Nat)
    (ca created_by : Option Nat) (hu : ObjKeyUnique db) :
    ObjKeyUnique (insert_object_upsert db now cache_id nar_id store_path_hash store_path
      references system deriver sigs ca created_by).1 ∧
    (∀ o ∈ db.objects, o.cache_id = cache_id → o.store_path_hash = store_path_hash →
      { o with nar_id := nar_id, store_path := store_path, references := references,
               system := system, deriver := deriver, sigs := sigs, ca := ca } ∈
        (insert_object_upsert db now cache_id nar_id store_path_hash store_path
          references system deriver sigs ca created_by).1.objects) := by
  unfold insert_object_upsert
  split
  · rename_i hex
    constructor
    · unfold ObjKeyUnique at hu ⊢
      simp only []
      rw [List.pairwise_map]
      refine hu.imp ?_
      intro a b hab hk
      apply hab
      have ha1 : ∀ o : ObjectModel,
          ((if o.cache_id = cache_id ∧ o.store_path_hash = store_path_hash then
            { o with nar_id := nar_id, store_path := store_path, references := references,
                     system := system, deriver := deriver, sigs := sigs, ca := ca }
          else o)).cache_id = o.cache_id := by
        intro o; split <;> rfl
      have ha2 : ∀ o : ObjectModel,
          ((if o.cache_id = cache_id ∧ o.store_path_hash = store_path_hash then
            { o with nar_id := nar_id, store_path := store_path, references := references,
                     system := system, deriver := deriver, sigs := sigs, ca := ca }
          else o)).store_path_hash = o.store_path_hash := by
        intro o; split <;> rfl
      rw [ha1 a, ha1 b, ha2 a, ha2 b] at hk
      exact hk
    · intro o ho h1 h2
      simp only []
      have : (if o.cache_id = cache_id ∧ o.store_path_hash = store_path_hash then
          { o with nar_id := nar_id, store_path := store_path, references := references,
                   system := system, deriver := deriver, sigs := sigs, ca := ca }
        else o) =
          { o with nar_id := nar_id, store_path := store_path, references := references,
                   system := system, deriver := deriver, sigs := sigs, ca := ca } :=
        if_pos ⟨h1, h2⟩
      exact this ▸ List.mem_map_of_mem _ ho
  · rename_i hex
    constructor
    · unfold ObjKeyUnique at hu ⊢
      simp only []
      rw [List.pairwise_append]
      refine ⟨hu, List.pairwise_singleton _ _, ?_⟩
      intro a ha b hb
      simp only [List.mem_singleton] at hb
      subst hb
      intro hk
      exact hex ⟨a, ha, hk.1, hk.2⟩
    · intro o ho h1 h2
      exact absurd ⟨o, ho, h1, h2⟩ hex

/-- Concrete object row for the C4 witness. -/
def objC4 : ObjectModel :=
  { id := 5, cache_id := 1, nar_id := 2, store_path_hash := 77, store_path := 78,
    references := 0, system := Option.none, deriver := Option.none, sigs := 0,
    ca := Option.none, created_at := 11, last_accessed_at := Option.none,
    created_by := Option.none }

/-- Concrete database for the C4 witness. -/
def dbC4 : Db :=
  { caches := [], nars := [], chunks := [], chunkrefs := [], objects := [objC4],
    next_id := 10 }

/-- C4 witness: upserting over the existing `(1, 77)` object replaces the
mutable fields of that row (its `created_at` stays `11`). -/
theorem insert_object_upsert_spec_witness :
    ObjKeyUnique dbC4 ∧
    { objC4 with nar_id := 9, store_path := 79, references := 3, system := Option.none,
                 deriver := Option.none, sigs := 4, ca := Option.none } ∈
      (insert_object_upsert dbC4 99 1 9 77 79 3 Option.none Option.none 4 Option.none
        Option.none).1.objects :=
  ⟨by simp [ObjKeyUnique, dbC4],
   (insert_object_upsert_spec dbC4 99 1 9 77 79 3 Option.none Option.none 4 Option.none
      Option.none (by simp [ObjKeyUnique, dbC4])).2 objC4 (by simp [dbC4]) rfl rfl⟩

/-- C9: `find_object_and_chunks_by_store_path_hash` with
`include_chunks = false` returns an empty chunk list; with
`include_chunks = true` a successful result carries exactly `nar.num_chunks`
chunk entries, listed in `seq` order of the NAR's chunkrefs, and a joined row
count different from `nar.num_chunks` fails with a `DatabaseError`. -/
theorem find_object_and_chunks_spec (db : Db) (cache store_path_hash : Nat) :
    (∀ o c n chs, find_object_and_chunks_by_store_path_hash db cache store_path_hash false =
        Except.ok (o, c, n, chs) → chs = []) ∧
    (∀ o c n chs, find_object_and_chunks_by_store_path_hash db cache store_path_hash true =
        Except.ok (o, c, n, chs) →
      (chs.length : Int) = n.num_chunks ∧
      ∃ crs : List ChunkRefModel, crs.Sorted seqLE ∧
        crs.Perm (db.chunkrefs.filter (fun cr => decide (cr.nar_id = n.id))) ∧
        chs = crs.map (chunk_of_chunkref db)) ∧
    (∀ o c n, find_object_row db cache store_path_hash = Option.some (o, c, n) →
      db.chunkrefs.filter (fun cr => decide (cr.nar_id = n.id)) ≠ [] →
      ((db.chunkrefs.filter (fun cr => decide (cr.nar_id = n.id))).length : Int) ≠
        n.num_chunks →
      find_object_and_chunks_by_store_path_hash db cache store_path_hash true =
        Except.error (ErrKind.databaseError "Database returned the wrong number of chunks")) := by
  refine ⟨?_, ?_, ?_⟩
  · intro o c n chs h
    unfold find_object_and_chunks_by_store_path_hash find_object_without_chunks at h
    rw [if_neg (by simp)] at h
    split at h
    · simp only [Except.ok.injEq, Prod.mk.injEq] at h
      exact h.2.2.2.symm
    · cases h
  · intro o c n chs h
    unfold find_object_and_chunks_by_store_path_hash find_object_with_chunks at h
    rw [if_pos rfl] at h
    split at h
    · cases h
    · rename_i o' c' n' heq
      dsimp only at h
      split at h
      · cases h
      · split at h
        · rename_i hlen
          simp only [Except.ok.injEq, Prod.mk.injEq] at h
          obtain ⟨rfl, rfl, rfl, rfl⟩ := h
          refine ⟨hlen, List.insertionSort seqLE _, List.sorted_insertionSort seqLE _,
            List.perm_insertionSort seqLE _, rfl⟩
        · cases h
  · intro o c n heq hne hcount
    unfold find_object_and_chunks_by_store_path_hash find_object_with_chunks
    rw [if_pos rfl]
    simp only [heq]
    have hlen : (List.insertionSort seqLE
        (db.chunkrefs.filter (fun cr => decide (cr.nar_id = n.id)))).length =
        (db.chunkrefs.filter (fun cr => decide (cr.nar_id = n.id))).length :=
      List.length_insertionSort _ _
    have hnempty : ¬ ((List.insertionSort seqLE
        (db.chunkrefs.filter (fun cr => decide (cr.nar_id = n.id)))).isEmpty = true) := by
      rw [List.isEmpty_iff_length_eq_zero, hlen]
      intro hz
      exact hne (List.length_eq_zero.mp hz)
    rw [if_neg hnempty]
    have h2 : ¬ (((List.map (chunk_of_chunkref db) (List.insertionSort seqLE
        (db.chunkrefs.filter (fun cr => decide (cr.nar_id = n.id))))).length : Int) =
        n.num_chunks) := by
      rw [List.length_map, hlen]
      exact hcount
    rw [if_neg h2]

/-- Concrete rows for the C9 witness. -/
def cacheC9 : CacheModel :=
  { id := 1, name := 7, keypair := 0, is_public := true, store_dir := 0, priority := 40,
    upstream_cache_key_names := 0, created_at := 0, deleted_at := Option.none,
    retention_period := Option.none }

def narC9 : NarModel :=
  { id := 2, state := NarState.valid, nar_hash := 3, nar_size := 3,
    compression := Compression.zstd, num_chunks := 1, completeness_hint := true,
    holders_count := 0, created_at := 0 }

def chC9 : ChunkModel :=
  { id := 3, state := ChunkState.valid, chunk_hash := 3, chunk_size := 3,
    file_hash := Option.some 4, file_size := Option.some 3,
    compression := Compression.zstd, remote_file := 1, remote_file_id := 1,
    holders_count := 0, created_at := 0 }

def crC9 : ChunkRefModel :=
  { id := 4, nar_id := 2, seq := 0, chunk_id := Option.some 3, chunk_hash := 3,
    compression := Compression.zstd }

def objC9 : ObjectModel :=
  { id := 5, cache_id := 1, nar_id := 2, store_path_hash := 77, store_path := 78,
    references := 0, system := Option.none, deriver := Option.none, sigs := 0,
    ca := Option.none, created_at := 0, last_accessed_at := Option.none,
    created_by := Option.none }

def dbC9 : Db :=
  { caches := [cacheC9], nars := [narC9], chunks := [chC9], chunkrefs := [crC9],
    objects := [objC9], next_id := 10 }

/-- C9 witness: on a one-chunk NAR the with-chunks read returns the single
chunk and its count matches `num_chunks`. -/
theorem find_object_and_chunks_spec_witness :
    find_object_and_chunks_by_store_path_hash dbC9 7 77 true =
      Except.ok (objC9, cacheC9, narC9, [Option.some chC9]) ∧
    (([Option.some chC9] : List (Option ChunkModel)).length : Int) = narC9.num_chunks :=
  ⟨by decide,
   ((find_object_and_chunks_spec dbC9 7 77).2.1 objC9 cacheC9 narC9 [Option.some chC9]
      (by decide)).1⟩

/-- The retention sweep touches only the `object` table. -/
theorem run_time_based_gc_inv (db : Db) (default_retention : Int) (cutoff_of : Int → Nat) :
    (run_time_based_garbage_collection db default_retention cutoff_of).nars = db.nars ∧
    (run_time_based_garbage_collection db default_retention cutoff_of).chunks = db.chunks := by
  unfold run_time_based_garbage_collection
  generalize (find_caches_with_retention db default_retention) = l
  induction l generalizing db with
  | nil => exact ⟨rfl, rfl⟩
  | cons x xs ih =>
    simp only [List.foldl_cons]
    exact ih ((delete_objects_by_cache_and_cutoff db x.1 (cutoff_of x.2)).1)

/-- C3: the orphan NAR reap selects exactly the Valid, unheld, unreferenced
NARs; the orphan chunk reap selects exactly the Valid, unheld, unreferenced
chunks; and — on a state where ids are unique (the PRIMARY KEYs) and
Deleted chunks are unheld (Deleted rows are only ever produced from rows with
`holders_count = 0`, and `find_and_lock_chunk` locks only Valid rows) — no
NAR or chunk row with `holders_count > 0` is removed by the orphan reaps, nor
touched by the retention sweep. -/
theorem gc_holders_spec (db : Db) (delete_file_ok : ChunkModel → Bool)
    (default_retention : Int) (cutoff_of : Int → Nat)
    (hdel : ∀ c ∈ db.chunks, c.state = ChunkState.deleted → c.holders_count ≤ 0)
    (hnid : db.nars.Pairwise (fun a b => a.id ≠ b.id))
    (hcid : db.chunks.Pairwise (fun a b => a.id ≠ b.id)) :
    (∀ i, i ∈ find_orphan_nar_ids db ↔ ∃ n ∈ db.nars, n.id = i ∧
        n.state = NarState.valid ∧ n.holders_count = 0 ∧
        ∀ o ∈ db.objects, o.nar_id ≠ n.id) ∧
    (∀ i, i ∈ find_orphan_chunk_ids db ↔ ∃ c ∈ db.chunks, c.id = i ∧
        c.state = ChunkState.valid ∧ c.holders_count = 0 ∧
        ∀ cr ∈ db.chunkrefs, cr.chunk_id ≠ Option.some c.id) ∧
    (∀ n ∈ db.nars, 0 < n.holders_count → n ∈ (run_reap_orphan_nars db).nars) ∧
    (∀ c ∈ db.chunks, 0 < c.holders_count →
        c ∈ (run_reap_orphan_chunks db delete_file_ok).chunks) ∧
    (run_time_based_garbage_collection db default_retention cutoff_of).nars = db.nars ∧
    (run_time_based_garbage_collection db default_retention cutoff_of).chunks = db.chunks := by
  have hnar_iff : ∀ i, i ∈ find_orphan_nar_ids db ↔ ∃ n ∈ db.nars, n.id = i ∧
      n.state = NarState.valid ∧ n.holders_count = 0 ∧
      ∀ o ∈ db.objects, o.nar_id ≠ n.id := by
    intro i
    unfold find_orphan_nar_ids
    simp only [List.mem_map, List.mem_filter, decide_eq_true_eq]
    constructor
    · rintro ⟨n, ⟨hn, hs, hh, ho⟩, rfl⟩
      exact ⟨n, hn, rfl, hs, hh, ho⟩
    · rintro ⟨n, hn, rfl, hs, hh, ho⟩
      exact ⟨n, ⟨hn, hs, hh, ho⟩, rfl⟩
  have hchunk_iff : ∀ i, i ∈ find_orphan_chunk_ids db ↔ ∃ c ∈ db.chunks, c.id = i ∧
      c.state = ChunkState.valid ∧ c.holders_count = 0 ∧
      ∀ cr ∈ db.chunkrefs, cr.chunk_id ≠ Option.some c.id := by
    intro i
    unfold find_orphan_chunk_ids
    simp only [List.mem_map, List.mem_filter, decide_eq_true_eq]
    constructor
    · rintro ⟨c, ⟨hc, hs, hh, ho⟩, rfl⟩
      exact ⟨c, hc, rfl, hs, hh, ho⟩
    · rintro ⟨c, hc, rfl, hs, hh, ho⟩
      exact ⟨c, ⟨hc, hs, hh, ho⟩, rfl⟩
  refine ⟨hnar_iff, hchunk_iff, ?_, ?_, run_time_based_gc_inv db default_retention cutoff_of⟩
  · intro n hn hpos
    unfold run_reap_orphan_nars
    dsimp only
    split
    · exact hn
    · show n ∈ (delete_nars_by_ids db (find_orphan_nar_ids db)).1.nars
      unfold delete_nars_by_ids
      simp only [List.mem_filter, decide_eq_true_eq]
      refine ⟨hn, ?_⟩
      intro hmem
      obtain ⟨n', hn', hid, _, hh, _⟩ := (hnar_iff n.id).mp hmem
      have heq : n' = n := eq_of_pairwise_key (fun x : NarModel => x.id) hnid hn' hn hid
      rw [heq] at hh
      omega
  · intro c hc hpos
    unfold run_reap_orphan_chunks
    dsimp only
    split
    · exact hc
    · have hnotin : c.id ∉ find_orphan_chunk_ids db := by
        intro hmem
        obtain ⟨c', hc', hid, _, hh, _⟩ := (hchunk_iff c.id).mp hmem
        have heq : c' = c := eq_of_pairwise_key (fun x : ChunkModel => x.id) hcid hc' hc hid
        rw [heq] at hh
        omega
      have hc1 : c ∈ (transition_chunks_to_deleted db (find_orphan_chunk_ids db)).1.chunks := by
        unfold transition_chunks_to_deleted
        have hfix : (if c.id ∈ find_orphan_chunk_ids db then
            { c with state := ChunkState.deleted } else c) = c := if_neg hnotin
        exact hfix ▸ List.mem_map_of_mem _ hc
      have hpair1 : (transition_chunks_to_deleted db
          (find_orphan_chunk_ids db)).1.chunks.Pairwise (fun a b => a.id ≠ b.id) := by
        unfold transition_chunks_to_deleted
        exact pairwise_key_map (fun x : ChunkModel => x.id) (fun a => by split <;> rfl) hcid
      have hcd : c.state ≠ ChunkState.deleted := by
        intro hd
        have := hdel c hc hd
        omega
      split
      · exact hc1
      · unfold delete_chunks_by_ids
        simp only [List.mem_filter, decide_eq_true_eq]
        refine ⟨hc1, ?_⟩
        intro hmem
        simp only [List.mem_map] at hmem
        obtain ⟨c', hc'mem, hid⟩ := hmem
        have hc'2 : c' ∈ find_deleted_chunks
            (transition_chunks_to_deleted db (find_orphan_chunk_ids db)).1 500 :=
          (List.mem_filter.mp hc'mem).1
        unfold find_deleted_chunks at hc'2
        have hc'3 := List.take_subset _ _ hc'2
        obtain ⟨hc'4, hc'5⟩ := List.mem_filter.mp hc'3
        rw [decide_eq_true_eq] at hc'5
        have heq : c' = c :=
          eq_of_pairwise_key (fun x : ChunkModel => x.id) hpair1 hc'4 hc1 hid
        rw [heq] at hc'5
        exact hcd hc'5

/-- Concrete rows for the C3 witness: a held Valid NAR and a held Valid
chunk, next to an unheld Deleted chunk. -/
def narC3 : NarModel :=
  { id := 1, state := NarState.valid, nar_hash := 3, nar_size := 3,
    compression := Compression.zstd, num_chunks := 1, completeness_hint := true,
    holders_count := 2, created_at := 0 }

def chC3 : ChunkModel :=
  { id := 2, state := ChunkState.valid, chunk_hash := 3, chunk_size := 3,
    file_hash := Option.some 4, file_size := Option.some 3,
    compression := Compression.zstd, remote_file := 1, remote_file_id := 1,
    holders_count := 1, created_at := 0 }

def chC3d : ChunkModel :=
  { id := 3, state := ChunkState.deleted, chunk_hash := 5, chunk_size := 3,
    file_hash := Option.none, file_size := Option.none,
    compression := Compression.zstd, remote_file := 2, remote_file_id := 2,
    holders_count := 0, created_at := 0 }

def dbC3 : Db :=
  { caches := [], nars := [narC3], chunks := [chC3, chC3d], chunkrefs := [],
    objects := [], next_id := 10 }

/-- C3 witness: on `dbC3` the held NAR and the held chunk survive the orphan
reaps. -/
theorem gc_holders_spec_witness :
    (∀ c ∈ dbC3.chunks, c.state = ChunkState.deleted → c.holders_count ≤ 0) ∧
    narC3 ∈ (run_reap_orphan_nars dbC3).nars ∧
    chC3 ∈ (run_reap_orphan_chunks dbC3 (fun _ => true)).chunks :=
  ⟨by decide,
   (gc_holders_spec dbC3 (fun _ => true) 0 (fun _ => 0) (by decide) (by decide)
      (by decide)).2.2.1 narC3 (by decide) (by decide),
   (gc_holders_spec dbC3 (fun _ => true) 0 (fun _ => 0) (by decide) (by decide)
      (by decide)).2.2.2.1 chC3 (by decide) (by decide)⟩

/-- The row produced by `update_chunk` when all four fields are set. -/
def chunk_with_update (c0 : ChunkModel) (s : ChunkState) (fh : Nat) (fs : Int)
    (hc : Int) : ChunkModel :=
  { c0 with state := s, file_hash := Option.some fh, file_size := Option.some fs,
            holders_count := hc }

theorem update_chunk_append_fresh (db1 : Db) (l : List ChunkModel) (c0 : ChunkModel)
    (hl : db1.chunks = l ++ [c0]) (hfresh : ∀ ch ∈ l, ch.id ≠ c0.id)
    (s : ChunkState) (fh : Nat) (fs : Int) (hc : Int) :
    update_chunk db1 c0.id (Option.some s) (Option.some fh) (Option.some fs)
      (Option.some hc) =
      ({ db1 with chunks := l ++ [chunk_with_update c0 s fh fs hc] },
       Option.some (chunk_with_update c0 s fh fs hc)) := by
  unfold update_chunk
  rw [hl]
  simp only [Option.getD_some]
  rw [List.map_append]
  have hmapl : l.map (fun c => if c.id = c0.id then
      { c with state := s, file_hash := Option.some fh, file_size := Option.some fs,
               holders_count := hc } else c) = l := by
    calc l.map (fun c => if c.id = c0.id then
        { c with state := s, file_hash := Option.some fh, file_size := Option.some fs,
                 holders_count := hc } else c)
        = l.map id := List.map_congr_left (fun a ha => by rw [if_neg (hfresh a ha)]; rfl)
      _ = l := List.map_id l
  rw [hmapl]
  have hmapc : [c0].map (fun c => if c.id = c0.id then
      { c with state := s, file_hash := Option.some fh, file_size := Option.some fs,
               holders_count := hc } else c) = [chunk_with_update c0 s fh fs hc] := by
    simp [chunk_with_update]
  rw [hmapc]
  have hfind : (l ++ [chunk_with_update c0 s fh fs hc]).find?
        (fun c => decide (c.id = c0.id)) =
      Option.some (chunk_with_update c0 s fh fs hc) := by
    rw [List.find?_append]
    rw [List.find?_eq_none.mpr (fun x hx => by simp [hfresh x hx])]
    simp [chunk_with_update]
  rw [hfind]

/-- The Valid chunk row left behind by a fresh (non-deduplicated) successful
`upload_chunk` under storage key `key`. -/
def finalized_chunk (cfg : Config) (env : Externals) (db : Db) (now : Nat) (key : Nat)
    (data : ChunkData) : ChunkModel :=
  { id := db.next_id, state := ChunkState.valid, chunk_hash := data.hash env,
    chunk_size := (data.size : Int),
    file_hash := Option.some (env.sha256 (env.compress cfg.compression_type data.contents)),
    file_size := Option.some ((env.compress cfg.compression_type data.contents).length : Int),
    compression := cfg.compression_type, remote_file := key, remote_file_id := key,
    holders_count := 1, created_at := now }

/-- A fresh successful `upload_chunk`: no matching Valid chunk exists, the
backend upload succeeds, and the streamed plaintext tap reproduces the
claimed hash and size. The chunk row is appended in Valid state with its
`file_hash`/`file_size` and `holders_count = 1`, and every broken chunkref
with matching `(chunk_hash, compression)` is repaired to point at it. -/
theorem upload_chunk_fresh_ok (cfg : Config) (env : Externals) (db : Db) (now key : Nat)
    (data : ChunkData)
    (hnone : find_and_lock_chunk db (data.hash env) cfg.compression_type = Option.none)
    (hup : env.upload_ok key = true)
    (hhash : env.sha256 data.contents = data.hash env)
    (hsize : data.contents.length = data.size)
    (hfresh : ∀ ch ∈ db.chunks, ch.id ≠ db.next_id) :
    upload_chunk cfg env db now key data =
      ({ db with
          chunks := db.chunks ++ [finalized_chunk cfg env db now key data],
          chunkrefs := db.chunkrefs.map (fun cr =>
            if cr.chunk_id = Option.none ∧ cr.chunk_hash = data.hash env ∧
               cr.compression = cfg.compression_type
            then { cr with chunk_id := Option.some db.next_id } else cr),
          next_id := db.next_id + 1 },
       Except.ok (finalized_chunk cfg env db now key data, false)) := by
  unfold upload_chunk
  simp only [hnone]
  rw [if_neg (by simp [hup])]
  rw [hhash, hsize]
  rw [if_pos ⟨rfl, rfl⟩]
  have hupd := update_chunk_append_fresh
    (insert_chunk db now ChunkState.pendingUpload (data.hash env) (data.size : Int)
      cfg.compression_type key key).2
    db.chunks
    (insert_chunk db now ChunkState.pendingUpload (data.hash env) (data.size : Int)
      cfg.compression_type key key).1
    rfl hfresh ChunkState.valid
    (env.sha256 (env.compress cfg.compression_type data.contents))
    ((env.compress cfg.compression_type data.contents).length : Int) 1
  rw [hupd]
  dsimp only
  unfold update_many_chunkrefs_by_hash
  dsimp only
  rfl

theorem insert_object_upsert_inv (db : Db) (now cache_id nar_id store_path_hash store_path
    references : Nat) (system deriver : Option Nat) (sigs : Nat) (ca created_by : Option Nat) :
    (insert_object_upsert db now cache_id nar_id store_path_hash store_path references
      system deriver sigs ca created_by).1.nars = db.nars ∧
    (insert_object_upsert db now cache_id nar_id store_path_hash store_path references
      system deriver sigs ca created_by).1.chunks = db.chunks ∧
    (insert_object_upsert db now cache_id nar_id store_path_hash store_path references
      system deriver sigs ca created_by).1.chunkrefs = db.chunkrefs := by
  unfold insert_object_upsert
  split <;> exact ⟨rfl, rfl, rfl⟩

theorem insert_object_upsert_mem (db : Db) (now cache_id nar_id store_path_hash store_path
    references : Nat) (system deriver : Option Nat) (sigs : Nat) (ca created_by : Option Nat) :
    ∃ o ∈ (insert_object_upsert db now cache_id nar_id store_path_hash store_path references
        system deriver sigs ca created_by).1.objects,
      o.cache_id = cache_id ∧ o.store_path_hash = store_path_hash ∧ o.nar_id = nar_id := by
  unfold insert_object_upsert
  split
  · rename_i hex
    obtain ⟨o0, ho0, h1, h2⟩ := hex
    have hfix : (if o0.cache_id = cache_id ∧ o0.store_path_hash = store_path_hash then
        { o0 with nar_id := nar_id, store_path := store_path, references := references,
                  system := system, deriver := deriver, sigs := sigs, ca := ca }
      else o0) =
        { o0 with nar_id := nar_id, store_path := store_path, references := references,
                  system := system, deriver := deriver, sigs := sigs, ca := ca } :=
      if_pos ⟨h1, h2⟩
    have hmem := List.mem_map_of_mem (fun o : ObjectModel =>
      if o.cache_id = cache_id ∧ o.store_path_hash = store_path_hash then
        { o with nar_id := nar_id, store_path := store_path, references := references,
                 system := system, deriver := deriver, sigs := sigs, ca := ca }
      else o) ho0
    simp only [] at hmem
    rw [hfix] at hmem
    exact ⟨_, hmem, h1, h2, rfl⟩
  · dsimp only
    exact ⟨_, List.mem_append_right _ (List.mem_singleton_self _), rfl, rfl, rfl⟩

theorem upload_chunk_dedup_ok (cfg : Config) (env : Externals) (db : Db) (now key : Nat)
    (data : ChunkData) (existing_chunk : ChunkModel) (db1 : Db)
    (hsome : find_and_lock_chunk db (data.hash env) cfg.compression_type =
      Option.some (existing_chunk, db1))
    (hpop : cfg.require_proof_of_possession = false ∨ data.is_hash_trusted = true ∨
      (env.sha256 data.contents = existing_chunk.chunk_hash ∧
       data.contents.length = data.size ∧
       (data.contents.length : Int) = existing_chunk.chunk_size)) :
    upload_chunk cfg env db now key data = (db1, Except.ok (existing_chunk, true)) := by
  unfold upload_chunk
  simp only [hsome]
  rw [if_neg ?_]
  rintro ⟨h1, h2, h3⟩
  rcases hpop with h | h | h
  · rw [h1] at h; cases h
  · rw [h] at h2; cases h2
  · exact h3 h

theorem upload_chunks_loop_nars (cfg : Config) (env : Externals) (now : Nat) (nar_id : Nat)
    (keys : Nat → Nat) : ∀ (pieces : List (List Nat)) (db : Db) (idx : Nat),
    (upload_chunks_loop cfg env now nar_id keys db idx pieces).1.nars = db.nars := by
  intro pieces
  induction pieces with
  | nil => intro db idx; rfl
  | cons piece rest ih =>
    intro db idx
    unfold upload_chunks_loop
    cases hr : (upload_chunk cfg env db now (keys idx) (ChunkData.bytes piece)).2 with
    | error e =>
      simp only [hr]
      rw [ih]
      exact upload_chunk_nars cfg env db now (keys idx) (ChunkData.bytes piece)
    | ok p =>
      obtain ⟨chunk, dedup⟩ := p
      simp only [hr]
      rw [ih]
      exact upload_chunk_nars cfg env db now (keys idx) (ChunkData.bytes piece)

/-- Concrete request data for the C1 analysis: proof of possession is
required, a Valid NAR with the declared hash exists and has no broken
chunkrefs, but the streamed body does not reproduce the declared hash. -/
def envC1 : Externals :=
  { sha256 := fun l => l.length, compress := fun _ l => l,
    chunk_stream := fun _ l => [l], upload_ok := fun _ => true }

def cfgC1 : Config :=
  { max_nar_info_size := 100,
    chunking := { nar_size_threshold := 0, min_size := 1, avg_size := 2, max_size := 4 },
    compression_type := Compression.zstd, require_proof_of_possession := true }

def cacheC1 : CacheModel :=
  { id := 1, name := 7, keypair := 0, is_public := true, store_dir := 0, priority := 40,
    upstream_cache_key_names := 0, created_at := 0, deleted_at := Option.none,
    retention_period := Option.none }

def narC1 : NarModel :=
  { id := 2, state := NarState.valid, nar_hash := 3, nar_size := 3,
    compression := Compression.zstd, num_chunks := 1, completeness_hint := false,
    holders_count := 0, created_at := 0 }

def dbC1 : Db :=
  { caches := [cacheC1], nars := [narC1], chunks := [], chunkrefs := [], objects := [],
    next_id := 10 }

def infoC1 : UploadPathNarInfo :=
  { cache := 7, store_path_hash := 77, store_path := 78, nar_hash := 3, nar_size := 3,
    references := 0, system := Option.none, deriver := Option.none, sigs := 0,
    ca := Option.none }

/-- C1 counterexample: a Valid NAR with the declared hash exists and none of
its chunkrefs is broken, yet the upload does not return `Deduplicated`: with
`require_proof_of_possession` enabled and a body that does not reproduce the
declared hash, the dedup path fails with 400 `"Bad NAR Hash or Size"`. -/
theorem upload_path_dedup_pop_counterexample :
    (∃ n ∈ dbC1.nars, n.state = NarState.valid ∧ n.nar_hash = infoC1.nar_hash) ∧
    dbC1.chunkrefs = [] ∧
    (upload_path cfgC1 envC1 dbC1 0 (fun _ => 100) cacheC1 infoC1 [5] Option.none).2 =
      Except.error (ErrKind.requestError "Bad NAR Hash or Size") :=
  ⟨by decide, rfl, by decide⟩

/-- C1 (amended): when the dedup probe locks a Valid NAR with the declared
hash and none of its chunkrefs has a NULL `chunk_id`, then — provided proof
of possession is disabled or the streamed body reproduces the locked NAR's
hash and size — the upload returns `Deduplicated`, having incremented that
NAR row's `holders_count` by 1 and set its `completeness_hint` to true, and
having upserted the Object row for `(cache, store-path-hash)` with `nar_id`
pointing at the locked NAR; when the locked NAR has a broken chunkref, the
new-upload path is taken instead (on the post-probe state). -/
theorem upload_path_dedup_spec (cfg : Config) (env : Externals) (db : Db) (now : Nat)
    (keys : Nat → Nat) (cache : CacheModel) (info : UploadPathNarInfo) (body : List Nat)
    (username : Option Nat) (nar : NarModel) (db1 : Db)
    (hlock : find_and_lock_nar db info.nar_hash = Option.some (nar, db1)) :
    (find_chunkref_missing_chunk db1 nar.id = Option.none →
      (cfg.require_proof_of_possession = false ∨
        (env.sha256 body = nar.nar_hash ∧ body.length = info.nar_size ∧
         (body.length : Int) = nar.nar_size)) →
      (upload_path cfg env db now keys cache info body username).2 =
        Except.ok { kind := UploadPathResultKind.deduplicated, file_size := Option.none,
                    frac_deduplicated := Option.none } ∧
      (∀ m ∈ db.nars, m.id = nar.id →
        { m with holders_count := m.holders_count + 1, completeness_hint := true } ∈
          (upload_path cfg env db now keys cache info body username).1.nars) ∧
      (∃ o ∈ (upload_path cfg env db now keys cache info body username).1.objects,
        o.cache_id = cache.id ∧ o.store_path_hash = info.store_path_hash ∧
        o.nar_id = nar.id)) ∧
    (∀ cr, find_chunkref_missing_chunk db1 nar.id = Option.some cr →
      upload_path cfg env db now keys cache info body username =
        upload_path_new cfg env db1 now keys cache info body username) := by
  constructor
  · intro hmiss hpop
    have hres : upload_path cfg env db now keys cache info body username =
        upload_path_dedup cfg env db1 now cache info body username nar := by
      unfold upload_path
      simp only [hlock, hmiss]
    rw [hres]
    unfold upload_path_dedup
    rw [if_neg ?_]
    · refine ⟨rfl, ?_, ?_⟩
      · intro m hm hid
        obtain ⟨-, -, -, -, hbump⟩ := find_and_lock_nar_inv hlock
        have hm1 : { m with holders_count := m.holders_count + 1 } ∈ db1.nars :=
          hbump m hm hid
        dsimp only
        have hnars : (insert_object_upsert db1 now cache.id nar.id info.store_path_hash
            info.store_path info.references Option.none info.deriver info.sigs info.ca
            username).1.nars = db1.nars :=
          (insert_object_upsert_inv db1 now cache.id nar.id info.store_path_hash
            info.store_path info.references Option.none info.deriver info.sigs info.ca
            username).1
        unfold update_nar_completeness_hint
        rw [hnars]
        have hfix : (fun n : NarModel => if n.id = nar.id then
            { n with completeness_hint := true } else n)
            { m with holders_count := m.holders_count + 1 } =
            { m with holders_count := m.holders_count + 1, completeness_hint := true } := by
          simp only [hid]
          simp
        exact hfix ▸ List.mem_map_of_mem _ hm1
      · dsimp only
        obtain ⟨o, ho, h1, h2, h3⟩ := insert_object_upsert_mem db1 now cache.id nar.id
          info.store_path_hash info.store_path info.references Option.none info.deriver
          info.sigs info.ca username
        exact ⟨o, ho, h1, h2, h3⟩
    · rintro ⟨h1, h2⟩
      rcases hpop with h | h
      · rw [h1] at h; cases h
      · exact h2 h
  · intro cr hmiss
    unfold upload_path
    simp only [hlock, hmiss]

/-- C1 witness: with proof of possession disabled, the same state
deduplicates successfully. -/
theorem upload_path_dedup_spec_witness :
    find_and_lock_nar dbC1 infoC1.nar_hash =
      Option.some ({ narC1 with holders_count := 1 },
        { dbC1 with nars := [{ narC1 with holders_count := 1 }] }) ∧
    (upload_path { cfgC1 with require_proof_of_possession := false } envC1 dbC1 0
      (fun _ => 100) cacheC1 infoC1 [5] Option.none).2 =
      Except.ok { kind := UploadPathResultKind.deduplicated, file_size := Option.none,
                  frac_deduplicated := Option.none } :=
  ⟨by decide,
   ((upload_path_dedup_spec { cfgC1 with require_proof_of_possession := false } envC1 dbC1 0
      (fun _ => 100) cacheC1 infoC1 [5] Option.none { narC1 with holders_count := 1 }
      { dbC1 with nars := [{ narC1 with holders_count := 1 }] } (by decide)).1 (by decide)
      (Or.inl rfl)).1⟩

/-- Concrete data for the C2 analysis: proof of possession is required, a
Valid chunk with the claimed `(chunk_hash, compression)` exists, but the
streamed bytes do not reproduce the claimed hash. -/
def envC2 : Externals :=
  { sha256 := fun l => l.length, compress := fun _ l => l,
    chunk_stream := fun _ l => [l], upload_ok := fun _ => true }

def cfgC2 : Config :=
  { max_nar_info_size := 100,
    chunking := { nar_size_threshold := 0, min_size := 1, avg_size := 2, max_size := 4 },
    compression_type := Compression.zstd, require_proof_of_possession := true }

def chC2 : ChunkModel :=
  { id := 2, state := ChunkState.valid, chunk_hash := 5, chunk_size := 2,
    file_hash := Option.some 9, file_size := Option.some 2,
    compression := Compression.zstd, remote_file := 1, remote_file_id := 1,
    holders_count := 0, created_at := 0 }

def dbC2 : Db :=
  { caches := [], nars := [], chunks := [chC2], chunkrefs := [], objects := [],
    next_id := 10 }

/-- C2 counterexample: a Valid chunk matching the claimed
`(chunk_hash, compression)` exists, yet the chunk upload is not returned as a
deduplicated result: with `require_proof_of_possession` enabled and an
untrusted stream whose bytes do not reproduce the chunk's hash/size, it fails
with 400 `"Bad chunk hash or size"`. -/
theorem upload_chunk_pop_counterexample :
    (∃ c ∈ dbC2.chunks, c.chunk_hash = (ChunkData.stream [1] 5 2).hash envC2 ∧
      c.state = ChunkState.valid ∧ c.compression = cfgC2.compression_type) ∧
    (upload_chunk cfgC2 envC2 dbC2 0 100 (ChunkData.stream [1] 5 2)).2 =
      Except.error (ErrKind.requestError "Bad chunk hash or size") :=
  ⟨by decide, by decide⟩

/-- C2 (amended): when a Valid chunk row matching the source's
`(chunk_hash, compression)` exists, then — provided proof of possession is
disabled, the source hash is trusted, or the streamed bytes reproduce the
locked row's hash and size — its `holders_count` is incremented and the
locked row is returned as a deduplicated result, with no new chunk row and no
storage interaction (the result is the same for every storage backend
behavior). Otherwise a new chunk row is inserted in PendingUpload with NULL
`file_hash`/`file_size`, and once the backend upload succeeds and the
streamed plaintext tap reproduces the claimed hash and size, one transaction
sets it Valid with its `file_hash`/`file_size` and `holders_count = 1` and
repairs every chunkref with matching `(chunk_hash, compression)` and NULL
`chunk_id` to point at it. -/
theorem upload_chunk_spec (cfg : Config) (env : Externals) (db : Db) (now key : Nat)
    (data : ChunkData) :
    (∀ existing_chunk db1,
      find_and_lock_chunk db (data.hash env) cfg.compression_type =
        Option.some (existing_chunk, db1) →
      (cfg.require_proof_of_possession = false ∨ data.is_hash_trusted = true ∨
        (env.sha256 data.contents = existing_chunk.chunk_hash ∧
         data.contents.length = data.size ∧
         (data.contents.length : Int) = existing_chunk.chunk_size)) →
      upload_chunk cfg env db now key data = (db1, Except.ok (existing_chunk, true)) ∧
      (∀ g, upload_chunk cfg { env with upload_ok := g } db now key data =
        (db1, Except.ok (existing_chunk, true))) ∧
      db1.chunks.length = db.chunks.length ∧
      (∀ m ∈ db.chunks, m.id = existing_chunk.id →
        { m with holders_count := m.holders_count + 1 } ∈ db1.chunks)) ∧
    ((insert_chunk db now ChunkState.pendingUpload (data.hash env) ((data.size : Nat) : Int)
        cfg.compression_type key key).1.state = ChunkState.pendingUpload ∧
     (insert_chunk db now ChunkState.pendingUpload (data.hash env) ((data.size : Nat) : Int)
        cfg.compression_type key key).1.file_hash = Option.none ∧
     (insert_chunk db now ChunkState.pendingUpload (data.hash env) ((data.size : Nat) : Int)
        cfg.compression_type key key).1.file_size = Option.none) ∧
    (find_and_lock_chunk db (data.hash env) cfg.compression_type = Option.none →
      env.upload_ok key = true →
      env.sha256 data.contents = data.hash env →
      data.contents.length = data.size →
      (∀ ch ∈ db.chunks, ch.id ≠ db.next_id) →
      upload_chunk cfg env db now key data =
        ({ db with
            chunks := db.chunks ++ [finalized_chunk cfg env db now key data],
            chunkrefs := db.chunkrefs.map (fun cr =>
              if cr.chunk_id = Option.none ∧ cr.chunk_hash = data.hash env ∧
                 cr.compression = cfg.compression_type
              then { cr with chunk_id := Option.some db.next_id } else cr),
            next_id := db.next_id + 1 },
         Except.ok (finalized_chunk cfg env db now key data, false))) := by
  refine ⟨?_, ⟨rfl, rfl, rfl⟩, ?_⟩
  · intro existing_chunk db1 hsome hpop
    have hirrel : ∀ g, ChunkData.hash { env with upload_ok := g } data =
        ChunkData.hash env data := by
      intro g; cases data <;> rfl
    refine ⟨upload_chunk_dedup_ok cfg env db now key data existing_chunk db1 hsome hpop,
      ?_, ?_, ?_⟩
    · intro g
      refine upload_chunk_dedup_ok cfg { env with upload_ok := g } db now key data
        existing_chunk db1 ?_ hpop
      rw [hirrel g]
      exact hsome
    · exact (find_and_lock_chunk_inv hsome).2.2.2.1
    · exact (find_and_lock_chunk_inv hsome).2.2.2.2
  · intro hnone hup hhash hsize hfresh
    exact upload_chunk_fresh_ok cfg env db now key data hnone hup hhash hsize hfresh

/-- Concrete data for the C2 witness: a trusted in-memory source matching the
existing Valid chunk deduplicates against it. -/
def envC2w : Externals :=
  { sha256 := fun _ => 5, compress := fun _ l => l,
    chunk_stream := fun _ l => [l], upload_ok := fun _ => true }

/-- C2 witness: the dedup branch returns the locked chunk with its
`holders_count` incremented. -/
theorem upload_chunk_spec_witness :
    find_and_lock_chunk dbC2 ((ChunkData.bytes [9]).hash envC2w) cfgC2.compression_type =
      Option.some ({ chC2 with holders_count := 1 },
        { dbC2 with chunks := [{ chC2 with holders_count := 1 }] }) ∧
    upload_chunk cfgC2 envC2w dbC2 0 100 (ChunkData.bytes [9]) =
      ({ dbC2 with chunks := [{ chC2 with holders_count := 1 }] },
       Except.ok ({ chC2 with holders_count := 1 }, true)) :=
  ⟨by decide,
   ((upload_chunk_spec cfgC2 envC2w dbC2 0 100 (ChunkData.bytes [9])).1
      { chC2 with holders_count := 1 }
      { dbC2 with chunks := [{ chC2 with holders_count := 1 }] } (by decide)
      (Or.inr (Or.inl rfl))).1⟩

/-- Concrete data for the C5 analysis. -/
def envC5 : Externals :=
  { sha256 := fun l => l.length, compress := fun _ l => l,
    chunk_stream := fun _ l => [l], upload_ok := fun _ => true }

def cfgC5 : Config :=
  { max_nar_info_size := 100,
    chunking := { nar_size_threshold := 0, min_size := 1, avg_size := 2, max_size := 4 },
    compression_type := Compression.zstd, require_proof_of_possession := false }

def cacheC5 : CacheModel :=
  { id := 1, name := 7, keypair := 0, is_public := true, store_dir := 0, priority := 40,
    upstream_cache_key_names := 0, created_at := 0, deleted_at := Option.none,
    retention_period := Option.none }

def dbC5 : Db :=
  { caches := [cacheC5], nars := [], chunks := [], chunkrefs := [], objects := [],
    next_id := 10 }

def infoC5 : UploadPathNarInfo :=
  { cache := 7, store_path_hash := 77, store_path := 78, nar_hash := 9, nar_size := 1,
    references := 0, system := Option.none, deriver := Option.none, sigs := 0,
    ca := Option.none }

/-- C5 counterexample: on the new-upload path with chunking disabled
(`nar_size_threshold = 0`, the unchunked case), a body that does not
reproduce the declared `nar_hash` fails with message
`"Bad chunk hash or size"` — not `"Bad NAR Hash or Size"` as claimed. -/
theorem upload_path_new_bad_hash_counterexample :
    ¬(envC5.sha256 [5] = infoC5.nar_hash) ∧
    (upload_path_new cfgC5 envC5 dbC5 0 (fun _ => 100) cacheC5 infoC5 [5] Option.none).2 =
      Except.error (ErrKind.requestError "Bad chunk hash or size") ∧
    ("Bad chunk hash or size" ≠ "Bad NAR Hash or Size") :=
  ⟨by decide, by decide, by decide⟩

/-- C5 (amended): the `"Bad NAR Hash or Size"` rejection exists only on the
chunked path. When the received bytes (capped at the declared `nar_size`) do
not reproduce the declared `nar_hash` and `nar_size`: (1) on the chunked
path the upload fails with a 400 BadRequest, message
`"Bad NAR Hash or Size"`, and the pending NAR row is deleted by the cleanup
hook, leaving the `nar` table unchanged; (2) on the unchunked path, when no
Valid chunk matches `(nar_hash, compression)` and the backend upload
succeeds, verification happens inside the chunk subroutine, which fails with
a 400 BadRequest under its own message `"Bad chunk hash or size"`, again
leaving the `nar` table unchanged; but (3) on the unchunked path with proof
of possession disabled, when a Valid chunk already matches
`(nar_hash, compression)`, the body is never verified at all: the mismatched
upload is deduplicated against that chunk, returns 200 `Uploaded`, and
commits a Valid NAR row whose `nar_size` is the existing chunk's. -/
theorem upload_path_new_bad_hash_spec (cfg : Config) (env : Externals) (db : Db) (now : Nat)
    (keys : Nat → Nat) (cache : CacheModel) (info : UploadPathNarInfo) (body : List Nat)
    (username : Option Nat)
    (hmis : ¬(env.sha256 (body.take info.nar_size) = info.nar_hash ∧
              (body.take info.nar_size).length = info.nar_size))
    (hfresh : ∀ n ∈ db.nars, n.id ≠ db.next_id) :
    (¬(cfg.chunking.nar_size_threshold = 0 ∨
        info.nar_size < cfg.chunking.nar_size_threshold) →
      (upload_path_new cfg env db now keys cache info body username).2 =
        Except.error (ErrKind.requestError "Bad NAR Hash or Size") ∧
      (upload_path_new cfg env db now keys cache info body username).1.nars = db.nars ∧
      (ErrKind.requestError "Bad NAR Hash or Size").http_status = 400) ∧
    ((cfg.chunking.nar_size_threshold = 0 ∨
        info.nar_size < cfg.chunking.nar_size_threshold) →
      find_and_lock_chunk db info.nar_hash cfg.compression_type = Option.none →
      env.upload_ok (keys 0) = true →
      (upload_path_new cfg env db now keys cache info body username).2 =
        Except.error (ErrKind.requestError "Bad chunk hash or size") ∧
      (upload_path_new cfg env db now keys cache info body username).1.nars = db.nars ∧
      (ErrKind.requestError "Bad chunk hash or size").http_status = 400) ∧
    ((cfg.chunking.nar_size_threshold = 0 ∨
        info.nar_size < cfg.chunking.nar_size_threshold) →
      cfg.require_proof_of_possession = false →
      ∀ existing_chunk db1,
        find_and_lock_chunk db info.nar_hash cfg.compression_type =
          Option.some (existing_chunk, db1) →
        (upload_path_new cfg env db now keys cache info body username).2 =
          Except.ok { kind := UploadPathResultKind.uploaded,
                      file_size := Option.some (existing_chunk.file_size.getD 0).toNat,
                      frac_deduplicated := Option.none } ∧
        ∃ n ∈ (upload_path_new cfg env db now keys cache info body username).1.nars,
          n.state = NarState.valid ∧ n.nar_hash = info.nar_hash ∧
          n.nar_size = existing_chunk.chunk_size ∧ n.num_chunks = 1) := by
  refine ⟨?_, ?_, ?_⟩
  · intro hthr
    have hcall : upload_path_new cfg env db now keys cache info body username =
        (delete_nar (upload_chunks_loop cfg env now
            (insert_nar db now NarState.pendingUpload info.nar_hash (info.nar_size : Int)
              cfg.compression_type 0).1.id keys
            (insert_nar db now NarState.pendingUpload info.nar_hash (info.nar_size : Int)
              cfg.compression_type 0).2 0
            (env.chunk_stream cfg.chunking (body.take info.nar_size))).1
          (insert_nar db now NarState.pendingUpload info.nar_hash (info.nar_size : Int)
            cfg.compression_type 0).1.id,
         Except.error (ErrKind.requestError "Bad NAR Hash or Size")) := by
      unfold upload_path_new
      rw [if_neg hthr]
      unfold upload_path_new_chunked
      dsimp only
      rw [if_neg hmis]
    rw [hcall]
    refine ⟨rfl, ?_, rfl⟩
    unfold delete_nar
    dsimp only
    have hloop : (upload_chunks_loop cfg env now
        (insert_nar db now NarState.pendingUpload info.nar_hash (info.nar_size : Int)
          cfg.compression_type 0).1.id keys
        (insert_nar db now NarState.pendingUpload info.nar_hash (info.nar_size : Int)
          cfg.compression_type 0).2 0
        (env.chunk_stream cfg.chunking (body.take info.nar_size))).1.nars =
        db.nars ++ [(insert_nar db now NarState.pendingUpload info.nar_hash
          (info.nar_size : Int) cfg.compression_type 0).1] :=
      upload_chunks_loop_nars cfg env now _ keys _ _ 0
    rw [hloop]
    rw [List.filter_append]
    rw [List.filter_eq_self.mpr (fun a ha => by simp [insert_nar, hfresh a ha])]
    simp [insert_nar]
  · intro hthr hnone hupok
    have herr : (upload_chunk cfg env db now (keys 0)
        (ChunkData.stream (body.take info.nar_size) info.nar_hash info.nar_size)).2 =
        Except.error (ErrKind.requestError "Bad chunk hash or size") := by
      unfold upload_chunk
      simp only [ChunkData.hash, ChunkData.contents, ChunkData.size,
        ChunkData.is_hash_trusted, hnone]
      rw [if_neg (by simp [hupok])]
      rw [if_neg hmis]
    have hcall : upload_path_new cfg env db now keys cache info body username =
        ((upload_chunk cfg env db now (keys 0)
           (ChunkData.stream (body.take info.nar_size) info.nar_hash info.nar_size)).1,
         Except.error (ErrKind.requestError "Bad chunk hash or size")) := by
      unfold upload_path_new
      rw [if_pos hthr]
      unfold upload_path_new_unchunked
      dsimp only
      simp only [herr]
    rw [hcall]
    exact ⟨rfl, upload_chunk_nars cfg env db now (keys 0) _, rfl⟩
  · intro hthr hpopf existing_chunk db1 hsome
    have hded : upload_chunk cfg env db now (keys 0)
        (ChunkData.stream (body.take info.nar_size) info.nar_hash info.nar_size) =
        (db1, Except.ok (existing_chunk, true)) :=
      upload_chunk_dedup_ok cfg env db now (keys 0)
        (ChunkData.stream (body.take info.nar_size) info.nar_hash info.nar_size)
        existing_chunk db1 hsome (Or.inl hpopf)
    have hcall : upload_path_new cfg env db now keys cache info body username =
        upload_path_new_unchunked cfg env db now keys cache info body username := by
      unfold upload_path_new
      rw [if_pos hthr]
    rw [hcall]
    unfold upload_path_new_unchunked
    dsimp only
    simp only [hded]
    refine ⟨trivial, ?_⟩
    refine ⟨({ id := db1.next_id, state := NarState.valid, nar_hash := info.nar_hash,
               nar_size := existing_chunk.chunk_size, compression := cfg.compression_type,
               num_chunks := 1, completeness_hint := false, holders_count := 0,
               created_at := now } : NarModel), ?_, rfl, rfl, rfl, rfl⟩
    simp [insert_object_upsert_inv, insert_nar, insert_chunkref]

/-- Chunked-threshold variant of `cfgC5` and a 3-byte declared size for the
C5 witness. -/
def chunkingC5w : ChunkingConfig :=
  { nar_size_threshold := 2, min_size := 1, avg_size := 2, max_size := 4 }

def cfgC5w : Config :=
  { cfgC5 with chunking := chunkingC5w }

def infoC5w : UploadPathNarInfo := { infoC5 with nar_size := 3 }

/-- A pre-existing Valid chunk matching `infoC5`'s declared hash, for the
dedup part of the C5 witness. -/
def chC5d : ChunkModel :=
  { id := 5, state := ChunkState.valid, chunk_hash := 9, chunk_size := 9,
    file_hash := Option.some 9, file_size := Option.some 9,
    compression := Compression.zstd, remote_file := 50, remote_file_id := 50,
    holders_count := 0, created_at := 0 }

def dbC5d : Db :=
  { caches := [cacheC5], nars := [], chunks := [chC5d], chunkrefs := [], objects := [],
    next_id := 10 }

/-- C5 witness: on the chunked path a hash mismatch fails with
`"Bad NAR Hash or Size"` and leaves the `nar` table unchanged; on the
unchunked path the same mismatched body is accepted as `Uploaded` when a
Valid chunk already matches the declared hash (proof of possession off). -/
theorem upload_path_new_bad_hash_spec_witness :
    ¬(envC5.sha256 (([5, 6, 7] : List Nat).take infoC5w.nar_size) = infoC5w.nar_hash ∧
      (([5, 6, 7] : List Nat).take infoC5w.nar_size).length = infoC5w.nar_size) ∧
    (upload_path_new cfgC5w envC5 dbC5 0 (fun _ => 100) cacheC5 infoC5w [5, 6, 7]
        Option.none).2 =
      Except.error (ErrKind.requestError "Bad NAR Hash or Size") ∧
    ¬(envC5.sha256 (([5] : List Nat).take infoC5.nar_size) = infoC5.nar_hash ∧
      (([5] : List Nat).take infoC5.nar_size).length = infoC5.nar_size) ∧
    (upload_path_new cfgC5 envC5 dbC5d 0 (fun _ => 100) cacheC5 infoC5 [5]
        Option.none).2 =
      Except.ok { kind := UploadPathResultKind.uploaded, file_size := Option.some 9,
                  frac_deduplicated := Option.none } :=
  ⟨by decide,
   ((upload_path_new_bad_hash_spec cfgC5w envC5 dbC5 0 (fun _ => 100) cacheC5 infoC5w
      [5, 6, 7] Option.none (by decide) (by decide)).1 (by decide)).1,
   by decide,
   ((upload_path_new_bad_hash_spec cfgC5 envC5 dbC5d 0 (fun _ => 100) cacheC5 infoC5
      [5] Option.none (by decide) (by decide)).2.2 (Or.inl rfl) rfl
      { chC5d with holders_count := 1 }
      { dbC5d with chunks := [{ chC5d with holders_count := 1 }] } (by decide)).1⟩

/-- C8: the new-upload path is unchunked exactly when the configured
`nar_size_threshold` is zero or the declared `nar_size` is strictly below it,
and chunked otherwise; and a zero-size upload whose declared hash is the hash
of the empty input (with no matching Valid chunk and a working backend) is
accepted as unchunked, producing exactly one zero-byte Valid chunk referenced
at seq 0 by a one-chunk Valid NAR. -/
theorem upload_path_new_threshold_spec (cfg : Config) (env : Externals) (db : Db)
    (now : Nat) (keys : Nat → Nat) (cache : CacheModel) (info : UploadPathNarInfo)
    (body : List Nat) (username : Option Nat) :
    ((cfg.chunking.nar_size_threshold = 0 ∨
        info.nar_size < cfg.chunking.nar_size_threshold) →
      upload_path_new cfg env db now keys cache info body username =
        upload_path_new_unchunked cfg env db now keys cache info body username) ∧
    (¬(cfg.chunking.nar_size_threshold = 0 ∨
        info.nar_size < cfg.chunking.nar_size_threshold) →
      upload_path_new cfg env db now keys cache info body username =
        upload_path_new_chunked cfg env db now keys cache info body username) ∧
    (info.nar_size = 0 →
      find_and_lock_chunk db info.nar_hash cfg.compression_type = Option.none →
      env.upload_ok (keys 0) = true →
      env.sha256 [] = info.nar_hash →
      (∀ ch ∈ db.chunks, ch.id ≠ db.next_id) →
      ∃ r : ChunkModel,
        (upload_path_new cfg env db now keys cache info body username).2 =
          Except.ok { kind := UploadPathResultKind.uploaded,
                      file_size := Option.some (env.compress cfg.compression_type []).length,
                      frac_deduplicated := Option.none } ∧
        r ∈ (upload_path_new cfg env db now keys cache info body username).1.chunks ∧
        r.chunk_size = 0 ∧ r.state = ChunkState.valid ∧ r.chunk_hash = info.nar_hash ∧
        r.holders_count = 1 ∧
        (∃ n ∈ (upload_path_new cfg env db now keys cache info body username).1.nars,
          n.state = NarState.valid ∧ n.num_chunks = 1 ∧ n.nar_size = 0 ∧
          n.nar_hash = info.nar_hash ∧
          ∃ cr ∈ (upload_path_new cfg env db now keys cache info body username).1.chunkrefs,
            cr.nar_id = n.id ∧ cr.seq = 0 ∧ cr.chunk_id = Option.some r.id)) := by
  refine ⟨fun h => by unfold upload_path_new; rw [if_pos h],
          fun h => by unfold upload_path_new; rw [if_neg h], ?_⟩
  intro h0 hnone hup hsha hfresh
  have hthr : cfg.chunking.nar_size_threshold = 0 ∨
      info.nar_size < cfg.chunking.nar_size_threshold := by
    rcases Nat.eq_zero_or_pos cfg.chunking.nar_size_threshold with h | h
    · exact Or.inl h
    · exact Or.inr (by omega)
  have htake : body.take info.nar_size = ([] : List Nat) := by
    rw [h0]
    exact List.take_zero body
  have hdata : ChunkData.stream (body.take info.nar_size) info.nar_hash info.nar_size =
      ChunkData.stream [] info.nar_hash 0 := by
    rw [htake, h0]
  have hchunk := upload_chunk_fresh_ok cfg env db now (keys 0)
    (ChunkData.stream [] info.nar_hash 0) hnone hup hsha rfl hfresh
  have hcall : upload_path_new cfg env db now keys cache info body username =
      upload_path_new_unchunked cfg env db now keys cache info body username := by
    unfold upload_path_new
    rw [if_pos hthr]
  rw [hcall]
  unfold upload_path_new_unchunked
  dsimp only
  rw [hdata]
  simp only [hchunk]
  refine ⟨finalized_chunk cfg env db now (keys 0) (ChunkData.stream [] info.nar_hash 0),
    ?_, ?_, rfl, rfl, rfl, rfl, ?_⟩
  · simp [finalized_chunk, ChunkData.contents]
  · simp [insert_object_upsert_inv, insert_nar, insert_chunkref]
  · refine ⟨({ id := db.next_id + 1, state := NarState.valid, nar_hash := info.nar_hash,
               nar_size := (finalized_chunk cfg env db now (keys 0)
                 (ChunkData.stream [] info.nar_hash 0)).chunk_size,
               compression := cfg.compression_type, num_chunks := 1,
               completeness_hint := false, holders_count := 0,
               created_at := now } : NarModel), ?_, rfl, rfl, ?_, rfl, ?_⟩
    · simp [insert_object_upsert_inv, insert_nar, insert_chunkref]
    · simp [finalized_chunk, ChunkData.size]
    · refine ⟨({ id := db.next_id + 2, nar_id := db.next_id + 1, seq := 0,
                 chunk_id := Option.some (finalized_chunk cfg env db now (keys 0)
                   (ChunkData.stream [] info.nar_hash 0)).id,
                 chunk_hash := info.nar_hash,
                 compression := cfg.compression_type } : ChunkRefModel), ?_, rfl, rfl, rfl⟩
      simp [insert_object_upsert_inv, insert_nar, insert_chunkref, finalized_chunk]

/-- Concrete data for the C8 witness: a zero-byte upload. -/
def envC8 : Externals :=
  { sha256 := fun l => l.length, compress := fun _ l => l,
    chunk_stream := fun _ l => [l], upload_ok := fun _ => true }

def cfgC8 : Config :=
  { max_nar_info_size := 100,
    chunking := { nar_size_threshold := 0, min_size := 1, avg_size := 2, max_size := 4 },
    compression_type := Compression.zstd, require_proof_of_possession := false }

def cacheC8 : CacheModel :=
  { id := 1, name := 7, keypair := 0, is_public := true, store_dir := 0, priority := 40,
    upstream_cache_key_names := 0, created_at := 0, deleted_at := Option.none,
    retention_period := Option.none }

def dbC8 : Db :=
  { caches := [cacheC8], nars := [], chunks := [], chunkrefs := [], objects := [],
    next_id := 10 }

def infoC8 : UploadPathNarInfo :=
  { cache := 7, store_path_hash := 77, store_path := 78, nar_hash := 0, nar_size := 0,
    references := 0, system := Option.none, deriver := Option.none, sigs := 0,
    ca := Option.none }

/-- C8 witness: a `nar_size = 0` upload is accepted as unchunked with one
zero-byte chunk. -/
theorem upload_path_new_threshold_spec_witness :
    infoC8.nar_size = 0 ∧
    (upload_path_new cfgC8 envC8 dbC8 0 (fun _ => 100) cacheC8 infoC8 [] Option.none).2 =
      Except.ok { kind := UploadPathResultKind.uploaded, file_size := Option.some 0,
                  frac_deduplicated := Option.none } := by
  constructor
  · rfl
  · obtain ⟨r, h1, -⟩ := (upload_path_new_threshold_spec cfgC8 envC8 dbC8 0 (fun _ => 100)
      cacheC8 infoC8 [] Option.none).2.2 rfl (by decide) rfl rfl (by decide)
    exact h1

/-- C10: on the unchunked upload path, a failed chunk upload propagates its
error and leaves the `nar` table untouched (no NAR row — pending or
otherwise — is ever created before the final transaction), while a
successful chunk upload commits, in one transaction, a NAR inserted directly
in Valid state with `num_chunks = 1` whose `nar_size` is the chunk row's
(verified) `chunk_size` rather than the client-declared `nar_size`, together
with its seq-0 chunkref and the Object upsert pointing at it. -/
theorem upload_path_new_unchunked_spec (cfg : Config) (env : Externals) (db : Db)
    (now : Nat) (keys : Nat → Nat) (cache : CacheModel) (info : UploadPathNarInfo)
    (body : List Nat) (username : Option Nat) :
    (∀ e, (upload_chunk cfg env db now (keys 0)
        (ChunkData.stream (body.take info.nar_size) info.nar_hash info.nar_size)).2 =
        Except.error e →
      (upload_path_new_unchunked cfg env db now keys cache info body username).2 =
        Except.error e ∧
      (upload_path_new_unchunked cfg env db now keys cache info body username).1.nars =
        db.nars) ∧
    (∀ chunk dedup, (upload_chunk cfg env db now (keys 0)
        (ChunkData.stream (body.take info.nar_size) info.nar_hash info.nar_size)).2 =
        Except.ok (chunk, dedup) →
      (upload_path_new_unchunked cfg env db now keys cache info body username).2 =
        Except.ok { kind := UploadPathResultKind.uploaded,
                    file_size := Option.some (chunk.file_size.getD 0).toNat,
                    frac_deduplicated := Option.none } ∧
      (∃ n ∈ (upload_path_new_unchunked cfg env db now keys cache info body username).1.nars,
        n.state = NarState.valid ∧ n.nar_size = chunk.chunk_size ∧ n.num_chunks = 1 ∧
        n.nar_hash = info.nar_hash ∧
        (∃ cr ∈ (upload_path_new_unchunked cfg env db now keys cache info body
            username).1.chunkrefs,
          cr.nar_id = n.id ∧ cr.seq = 0 ∧ cr.chunk_id = Option.some chunk.id) ∧
        (∃ o ∈ (upload_path_new_unchunked cfg env db now keys cache info body
            username).1.objects,
          o.cache_id = cache.id ∧ o.store_path_hash = info.store_path_hash ∧
          o.nar_id = n.id))) := by
  constructor
  · intro e he
    unfold upload_path_new_unchunked
    dsimp only
    simp only [he]
    exact ⟨trivial, upload_chunk_nars cfg env db now (keys 0) _⟩
  · intro chunk dedup he
    unfold upload_path_new_unchunked
    dsimp only
    simp only [he]
    refine ⟨trivial, ?_⟩
    refine ⟨({ id := (upload_chunk cfg env db now (keys 0)
                 (ChunkData.stream (body.take info.nar_size) info.nar_hash
                   info.nar_size)).1.next_id,
               state := NarState.valid, nar_hash := info.nar_hash,
               nar_size := chunk.chunk_size, compression := cfg.compression_type,
               num_chunks := 1, completeness_hint := false, holders_count := 0,
               created_at := now } : NarModel), ?_, rfl, rfl, rfl, rfl, ?_, ?_⟩
    · simp [insert_object_upsert_inv, insert_nar, insert_chunkref]
    · refine ⟨({ id := (upload_chunk cfg env db now (keys 0)
                   (ChunkData.stream (body.take info.nar_size) info.nar_hash
                     info.nar_size)).1.next_id + 1,
                 nar_id := (upload_chunk cfg env db now (keys 0)
                   (ChunkData.stream (body.take info.nar_size) info.nar_hash
                     info.nar_size)).1.next_id,
                 seq := 0, chunk_id := Option.some chunk.id, chunk_hash := info.nar_hash,
                 compression := cfg.compression_type } : ChunkRefModel), ?_, rfl, rfl, rfl⟩
      simp [insert_object_upsert_inv, insert_nar, insert_chunkref]
    · obtain ⟨o, ho, h1, h2, h3⟩ := insert_object_upsert_mem
        ((insert_chunkref ((insert_nar ((upload_chunk cfg env db now (keys 0)
            (ChunkData.stream (body.take info.nar_size) info.nar_hash info.nar_size)).1)
          now NarState.valid info.nar_hash chunk.chunk_size cfg.compression_type 1).2)
          ((insert_nar ((upload_chunk cfg env db now (keys 0)
            (ChunkData.stream (body.take info.nar_size) info.nar_hash info.nar_size)).1)
          now NarState.valid info.nar_hash chunk.chunk_size cfg.compression_type 1).1.id)
          0 (Option.some chunk.id) info.nar_hash cfg.compression_type).1)
        now cache.id ((insert_nar ((upload_chunk cfg env db now (keys 0)
            (ChunkData.stream (body.take info.nar_size) info.nar_hash info.nar_size)).1)
          now NarState.valid info.nar_hash chunk.chunk_size cfg.compression_type 1).1.id)
        info.store_path_hash info.store_path info.references Option.none info.deriver
        info.sigs info.ca username
      exact ⟨o, ho, h1, h2, h3⟩

/-- Concrete data for the C10 witness: a successful unchunked upload. -/
def envC10 : Externals :=
  { sha256 := fun l => l.length, compress := fun _ l => l,
    chunk_stream := fun _ l => [l], upload_ok := fun _ => true }

def cfgC10 : Config :=
  { max_nar_info_size := 100,
    chunking := { nar_size_threshold := 0, min_size := 1, avg_size := 2, max_size := 4 },
    compression_type := Compression.zstd, require_proof_of_possession := false }

def cacheC10 : CacheModel :=
  { id := 1, name := 7, keypair := 0, is_public := true, store_dir := 0, priority := 40,
    upstream_cache_key_names := 0, created_at := 0, deleted_at := Option.none,
    retention_period := Option.none }

def dbC10 : Db :=
  { caches := [cacheC10], nars := [], chunks := [], chunkrefs := [], objects := [],
    next_id := 10 }

def infoC10 : UploadPathNarInfo :=
  { cache := 7, store_path_hash := 77, store_path := 78, nar_hash := 3, nar_size := 3,
    references := 0, system := Option.none, deriver := Option.none, sigs := 0,
    ca := Option.none }

def chunkC10 : ChunkModel :=
  { id := 10, state := ChunkState.valid, chunk_hash := 3, chunk_size := 3,
    file_hash := Option.some 3, file_size := Option.some 3,
    compression := Compression.zstd, remote_file := 100, remote_file_id := 100,
    holders_count := 1, created_at := 0 }

/-- C10 witness: the successful unchunked upload returns `Uploaded` with the
chunk's encoded size. -/
theorem upload_path_new_unchunked_spec_witness :
    (upload_chunk cfgC10 envC10 dbC10 0 100
      (ChunkData.stream (([5, 6, 7] : List Nat).take infoC10.nar_size) infoC10.nar_hash
        infoC10.nar_size)).2 = Except.ok (chunkC10, false) ∧
    (upload_path_new_unchunked cfgC10 envC10 dbC10 0 (fun _ => 100) cacheC10 infoC10
        [5, 6, 7] Option.none).2 =
      Except.ok { kind := UploadPathResultKind.uploaded, file_size := Option.some 3,
                  frac_deduplicated := Option.none } :=
  ⟨by decide,
   ((upload_path_new_unchunked_spec cfgC10 envC10 dbC10 0 (fun _ => 100) cacheC10 infoC10
      [5, 6, 7] Option.none).2 chunkC10 false (by decide)).1⟩
